import Mathlib

/-!
# Record coordinator of the student service

A shallow embedding of `controllers/student_controller.go` and `models/models.go`.

* The three MongoDB collections of database `school` are lists of typed records in
  insertion (natural) order.
* Every handler is a function from the request and the store state to the response, the new
  store state and the log of the store calls it issued.
* What the handler cannot control is collected in `Env`: the value handed out by
  `primitive.NewObjectID()`, the `_id` values the driver adds to documents inserted without
  one, and for each collection whether the store call of this request on that collection comes
  back with a driver level error (time-out, lost connection).  A call that returns an error
  leaves the collection as it was.
* Query filters compare BSON values, so a filter value of BSON type ObjectId is never equal to
  a stored string, even when the string is the hexadecimal form of that ObjectId.
-/

namespace Mentor

/-! ## Identifiers (`primitive.ObjectID`, `encoding/hex`) -/

abbrev Byte := Fin 256

/-- The type `primitive.ObjectID`, which is `[12]byte`. -/
abbrev ObjectID := { bs : List Byte // bs.length = 12 }

/-- The table `hextable` of `encoding/hex`: `"0123456789abcdef"`. -/
def hextable : List Char := "0123456789abcdef".data

/-- The function `hex.Encode`: two lower-case digits per byte, high nibble first. -/
def hexEncode : List Byte → List Char
  | [] => []
  | v :: vs => hextable.getD (v.val / 16) '0' :: hextable.getD (v.val % 16) '0' :: hexEncode vs

/-- The method `ObjectID.Hex`. -/
def ObjectID.Hex (id : ObjectID) : String := String.mk (hexEncode id.val)

/-- The function `fromHexChar` of `encoding/hex`: digits and letters of either case. -/
def fromHexChar (c : Char) : Option Nat :=
  if '0' ≤ c ∧ c ≤ '9' then some (c.toNat - '0'.toNat)
  else if 'a' ≤ c ∧ c ≤ 'f' then some (c.toNat - 'a'.toNat + 10)
  else if 'A' ≤ c ∧ c ≤ 'F' then some (c.toNat - 'A'.toNat + 10)
  else none

/-- The function `hex.Decode`: fails on an odd number of digits or on a non-digit. -/
def hexDecode : List Char → Option (List Byte)
  | [] => some []
  | [_] => none
  | a :: b :: rest =>
    match fromHexChar a, fromHexChar b, hexDecode rest with
    | some x, some y, some bs => some (⟨(x * 16 + y) % 256, Nat.mod_lt _ (by decide)⟩ :: bs)
    | _, _, _ => none

/-- The function `primitive.ObjectIDFromHex`: the string must have 24 characters and decode
as hexadecimal.  (Go measures the length in bytes; a string with a multi-byte character fails
the decoding in any case, so the result is the same.) -/
def ObjectIDFromHex (s : String) : Option ObjectID :=
  if s.data.length ≠ 24 then none
  else
    match hexDecode s.data with
    | some bs => if h : bs.length = 12 then some ⟨bs, h⟩ else none
    | none => none

/-! ## Models (`models/models.go`) -/

structure Student where
  ID : ObjectID
  FirstName : String
  LastName : String
  Address : String
  GradeLevel : String
  ClassName : String
deriving DecidableEq

structure Class where
  ID : ObjectID
  StudentID : String
  ClassName : String
  GradeLevel : String
deriving DecidableEq

structure GradeLevel where
  ID : ObjectID
  StudentID : String
  Level : String
deriving DecidableEq

/-! ## BSON documents and filters -/

/-- The BSON values that occur in the three collections. -/
inductive BsonValue where
  | str (s : String)
  | objectID (o : ObjectID)
deriving DecidableEq

/-- A BSON document (`bson.M`, or an encoded struct): keys with their values. -/
abbrev Doc := List (String × BsonValue)

/-- How a record type is stored: its document according to the `bson` struct tags, and the
effect of one `$set` entry on it. -/
class Document (α : Type) where
  toDoc : α → Doc
  setField : α → String × BsonValue → α

instance : Document Student where
  toDoc s :=
    [("_id", .objectID s.ID), ("first_name", .str s.FirstName), ("last_name", .str s.LastName),
      ("address", .str s.Address), ("grade_level", .str s.GradeLevel),
      ("class_name", .str s.ClassName)]
  setField s kv :=
    match kv with
    | ("first_name", .str v) => { s with FirstName := v }
    | ("last_name", .str v) => { s with LastName := v }
    | ("address", .str v) => { s with Address := v }
    | ("grade_level", .str v) => { s with GradeLevel := v }
    | ("class_name", .str v) => { s with ClassName := v }
    | _ => s

instance : Document Class where
  toDoc c :=
    [("_id", .objectID c.ID), ("student_id", .str c.StudentID), ("class_name", .str c.ClassName),
      ("grade_level", .str c.GradeLevel)]
  setField c kv :=
    match kv with
    | ("class_name", .str v) => { c with ClassName := v }
    | ("grade_level", .str v) => { c with GradeLevel := v }
    | _ => c

instance : Document GradeLevel where
  toDoc g := [("_id", .objectID g.ID), ("student_id", .str g.StudentID), ("level", .str g.Level)]
  setField g kv :=
    match kv with
    | ("level", .str v) => { g with Level := v }
    | _ => g

/-- The equality filter `bson.M{k: v}`: the document has field `k` with a value of the same
BSON type and content as `v`. -/
def matchEq {α : Type} [Document α] (filter : String × BsonValue) (d : α) : Bool :=
  (Document.toDoc d).lookup filter.1 == some filter.2

/-- The update document `bson.M{"$set": set}` applied to a record. -/
def applySet {α : Type} [Document α] (set : Doc) (d : α) : α :=
  set.foldl Document.setField d

/-! ## Store calls -/

inductive StoreErr where
  | driver
  | duplicateKey
  | noDocuments
  | badRegex
deriving DecidableEq

/-- The first record accepted by `p` is replaced by its image under `f`; the first component
is the number of matched records (0 or 1). -/
def updateFirst {α : Type} (p : α → Bool) (f : α → α) : List α → Nat × List α
  | [] => (0, [])
  | d :: ds =>
    if p d then (1, f d :: ds)
    else ((updateFirst p f ds).1, d :: (updateFirst p f ds).2)

/-- The first record accepted by `p` is removed. -/
def deleteFirst {α : Type} (p : α → Bool) : List α → List α
  | [] => []
  | d :: ds => if p d then ds else d :: deleteFirst p ds

/-- The call `Collection.InsertOne`: fails on a driver error and on an `_id` already present
(the unique index on `_id`). -/
def InsertOne {α : Type} [Document α] (fault : Bool) (doc : α) (coll : List α) :
    Except StoreErr (List α) :=
  if fault then .error .driver
  else if coll.any (fun d => (Document.toDoc d).lookup "_id" == (Document.toDoc doc).lookup "_id")
  then .error .duplicateKey
  else .ok (coll ++ [doc])

/-- The call `Collection.UpdateOne` with an equality filter and a `$set` update, no upsert:
returns `MatchedCount` and the collection afterwards. -/
def UpdateOne {α : Type} [Document α] (fault : Bool) (filter : String × BsonValue) (set : Doc)
    (coll : List α) : Except StoreErr (Nat × List α) :=
  if fault then .error .driver
  else .ok (updateFirst (matchEq filter) (applySet set) coll)

/-- The call `Collection.DeleteOne` with an equality filter. -/
def DeleteOne {α : Type} [Document α] (fault : Bool) (filter : String × BsonValue)
    (coll : List α) : Except StoreErr (List α) :=
  if fault then .error .driver
  else .ok (deleteFirst (matchEq filter) coll)

/-- The call `Collection.FindOne(...).Decode`: `mongo.ErrNoDocuments` when nothing matches. -/
def FindOne {α : Type} [Document α] (fault : Bool) (filter : String × BsonValue)
    (coll : List α) : Except StoreErr α :=
  if fault then .error .driver
  else
    match coll.find? (matchEq filter) with
    | some d => .ok d
    | none => .error .noDocuments

/-! ## Store state, environment, responses -/

/-- The database `school`. -/
structure DB where
  students : List Student
  classes : List Class
  grade_levels : List GradeLevel
deriving DecidableEq

inductive Coll where
  | students
  | classes
  | grade_levels
deriving DecidableEq

inductive OpKind where
  | insertOne
  | updateOne
  | deleteOne
  | findOne
  | find
deriving DecidableEq

/-- One store call issued by a handler: the collection, the operation, and whether the call
returned without error. -/
structure StoreCall where
  coll : Coll
  op : OpKind
  ok : Bool
deriving DecidableEq

/-- What a request meets and does not control. -/
structure Env where
  /-- The store call of this request on the collection returns a driver level error. -/
  fault : Coll → Bool
  /-- The value of `primitive.NewObjectID()` in `CreateStudent`. -/
  studentID : ObjectID
  /-- The `_id` the driver gives the grade level document, inserted with an empty `_id`. -/
  gradeLevelDocID : ObjectID
  /-- The `_id` the driver gives the class document, inserted with an empty `_id`. -/
  classDocID : ObjectID
  /-- The cursor of `Find` reports an error after the iteration. -/
  cursorFault : Bool
  /-- The text `err.Error()` of a driver error. -/
  errText : String
  /-- The caseless equivalence of the store's regular expression engine: under option `i` a
  literal of a pattern matches the characters that have the same image as the literal. -/
  fold : Char → Char
  /-- The store's regular expression engine on the patterns and options that `parseRegex` and
  `RegexCond.compile` below leave out: `none` when the pattern does not compile, else the set
  of subjects it matches. -/
  pcre : String → String → Option (List Char → Bool)

/-- The JSON input of `CreateStudent` and `UpdateStudent`. -/
structure Input where
  FirstName : String
  LastName : String
  Address : String
  ClassName : String
  GradeLevel : String
deriving DecidableEq

inductive Body where
  | text (msg : String)
  | student (s : Student)
  | students (l : List Student)
  | json (key value : String)
deriving DecidableEq

structure Response where
  status : Nat
  body : Body
deriving DecidableEq

def StatusOK : Nat := 200
def StatusCreated : Nat := 201
def StatusBadRequest : Nat := 400
def StatusNotFound : Nat := 404
def StatusInternalServerError : Nat := 500

/-- The call `http.Error(w, msg, code)`. -/
def httpError (msg : String) (code : Nat) : Response := ⟨code, .text msg⟩

/-- What a handler leaves behind: the response, the store state and the store calls issued,
in order. -/
structure Result where
  resp : Response
  db : DB
  calls : List StoreCall

/-! ## Regular expression filters (`$regex` with `$options`) -/

/-- The part of the pattern syntax given a semantics here: a sequence of literal characters and
dots. -/
inductive RegexAtom where
  | lit (c : Char)
  | anyChar
deriving DecidableEq

/-- The characters with a special meaning in a pattern (backslash, caret, dollar, dot,
brackets, bar, parentheses, quantifiers, braces), and the NUL character. -/
def regexMeta : List Char :=
  [Char.ofNat 92, '^', '$', '.', '[', ']', '|', '(', ')', '?', '*', '+', Char.ofNat 123,
    Char.ofNat 125, Char.ofNat 0]

/-- A pattern of literal characters and dots; `none` for any other pattern. -/
def parseRegex : List Char → Option (List RegexAtom)
  | [] => some []
  | c :: cs =>
    if c = '.' then (parseRegex cs).map (fun as => RegexAtom.anyChar :: as)
    else if c ∈ regexMeta then none
    else (parseRegex cs).map (fun as => RegexAtom.lit c :: as)

/-- One atom against one character.  A dot matches every character but the line feed; a
literal matches itself, and with the caseless option the characters equivalent to it. -/
def RegexAtom.accepts (fold : Char → Char) (caseless : Bool) : RegexAtom → Char → Bool
  | .lit p, c => if caseless then fold p == fold c else p == c
  | .anyChar, c => c != Char.ofNat 10

/-- The atoms match a prefix of the subject. -/
def matchHere (fold : Char → Char) (caseless : Bool) : List RegexAtom → List Char → Bool
  | [], _ => true
  | _ :: _, [] => false
  | a :: as, c :: cs => a.accepts fold caseless c && matchHere fold caseless as cs

/-- The atoms match somewhere in the subject (a pattern is not anchored). -/
def regexSearch (fold : Char → Char) (caseless : Bool) (atoms : List RegexAtom) :
    List Char → Bool
  | [] => matchHere fold caseless atoms []
  | c :: cs => matchHere fold caseless atoms (c :: cs) || regexSearch fold caseless atoms cs

/-- The condition `bson.M{"$regex": regex, "$options": options}` on a field. -/
structure RegexCond where
  regex : String
  options : String
deriving DecidableEq

/-- A query filter of regular expression conditions, a `bson.M` keyed by field name. -/
abbrev Filter := List (String × RegexCond)

/-- The map assignment `filter[k] = v`. -/
def Filter.set (filter : Filter) (k : String) (v : RegexCond) : Filter :=
  filter.filter (fun e => e.1 != k) ++ [(k, v)]

/-- The compiled condition: the subjects it accepts, or `none` when the pattern does not
compile.  Patterns of literals and dots are matched here when the options are `i` or empty;
the rest is left to the engine of the environment. -/
def RegexCond.compile (env : Env) (cond : RegexCond) : Option (List Char → Bool) :=
  match parseRegex cond.regex.data with
  | some atoms =>
    if cond.options = "i" then some (regexSearch env.fold true atoms)
    else if cond.options = "" then some (regexSearch env.fold false atoms)
    else env.pcre cond.regex cond.options
  | none => env.pcre cond.regex cond.options

/-- All conditions of the filter, compiled. -/
def Filter.compile (env : Env) : Filter → Option (List (String × (List Char → Bool)))
  | [] => some []
  | (k, cond) :: rest =>
    match cond.compile env, Filter.compile env rest with
    | some re, some res => some ((k, re) :: res)
    | _, _ => none

/-- A document satisfies a compiled filter when each constrained field is a string accepted
by its condition. -/
def satisfies {α : Type} [Document α] (conds : List (String × (List Char → Bool))) (d : α) :
    Bool :=
  conds.all (fun e =>
    match (Document.toDoc d).lookup e.1 with
    | some (.str v) => e.2 v.data
    | _ => false)

/-- The call `Collection.Find` with a filter of regular expression conditions. -/
def Find {α : Type} [Document α] (env : Env) (fault : Bool) (filter : Filter) (coll : List α) :
    Except StoreErr (List α) :=
  if fault then .error .driver
  else
    match filter.compile env with
    | none => .error .badRegex
    | some conds => .ok (coll.filter (satisfies conds))

/-! ## Handlers (`controllers/student_controller.go`) -/

/-- The handler `StudentController.CreateStudent`; `body` is the outcome of decoding the
request body. -/
def CreateStudent (env : Env) (body : Except String Input) (db : DB) : Result :=
  match body with
  | .error e => ⟨httpError e StatusBadRequest, db, []⟩
  | .ok input =>
    let studentID := env.studentID
    let student : Student :=
      { ID := studentID, FirstName := input.FirstName, LastName := input.LastName,
        Address := input.Address, GradeLevel := input.GradeLevel, ClassName := input.ClassName }
    match InsertOne (env.fault .students) student db.students with
    | .error _ =>
      ⟨httpError "Failed to create student" StatusInternalServerError, db,
        [⟨.students, .insertOne, false⟩]⟩
    | .ok students =>
      let db1 := { db with students := students }
      let gradeLevel : GradeLevel :=
        { ID := env.gradeLevelDocID, StudentID := studentID.Hex, Level := input.GradeLevel }
      match InsertOne (env.fault .grade_levels) gradeLevel db1.grade_levels with
      | .error _ =>
        ⟨httpError "Failed to create grade level" StatusInternalServerError, db1,
          [⟨.students, .insertOne, true⟩, ⟨.grade_levels, .insertOne, false⟩]⟩
      | .ok gradeLevels =>
        let db2 := { db1 with grade_levels := gradeLevels }
        let class_ : Class :=
          { ID := env.classDocID, StudentID := studentID.Hex, ClassName := input.ClassName,
            GradeLevel := input.GradeLevel }
        match InsertOne (env.fault .classes) class_ db2.classes with
        | .error _ =>
          ⟨httpError "Failed to create class" StatusInternalServerError, db2,
            [⟨.students, .insertOne, true⟩, ⟨.grade_levels, .insertOne, true⟩,
              ⟨.classes, .insertOne, false⟩]⟩
        | .ok classes =>
          ⟨⟨StatusCreated, .student student⟩, { db2 with classes := classes },
            [⟨.students, .insertOne, true⟩, ⟨.grade_levels, .insertOne, true⟩,
              ⟨.classes, .insertOne, true⟩]⟩

/-- The handler `StudentController.UpdateStudent`; `studentID` is the path variable
`student_id`. -/
def UpdateStudent (env : Env) (studentID : String) (body : Except String Input) (db : DB) :
    Result :=
  if studentID = "" then ⟨httpError "student_id is required" StatusBadRequest, db, []⟩
  else
    match ObjectIDFromHex studentID with
    | none => ⟨httpError "Invalid student_id format" StatusBadRequest, db, []⟩
    | some objectID =>
      match body with
      | .error _ => ⟨httpError "Invalid JSON data" StatusBadRequest, db, []⟩
      | .ok input =>
        let updateStudent : Doc :=
          [("first_name", .str input.FirstName), ("last_name", .str input.LastName),
            ("address", .str input.Address), ("class_name", .str input.ClassName),
            ("grade_level", .str input.GradeLevel)]
        match UpdateOne (env.fault .students) ("_id", .objectID objectID) updateStudent
            db.students with
        | .error _ =>
          ⟨httpError "Student not found or failed to update" StatusNotFound, db,
            [⟨.students, .updateOne, false⟩]⟩
        | .ok (matchedCount, students) =>
          let db1 := { db with students := students }
          if matchedCount = 0 then
            ⟨httpError "Student not found or failed to update" StatusNotFound, db1,
              [⟨.students, .updateOne, true⟩]⟩
          else
            match UpdateOne (env.fault .classes) ("student_id", .str studentID)
                [("class_name", .str input.ClassName), ("grade_level", .str input.GradeLevel)]
                db1.classes with
            | .error _ =>
              ⟨httpError "Failed to update class" StatusInternalServerError, db1,
                [⟨.students, .updateOne, true⟩, ⟨.classes, .updateOne, false⟩]⟩
            | .ok (_, classes) =>
              let db2 := { db1 with classes := classes }
              match UpdateOne (env.fault .grade_levels) ("student_id", .str studentID)
                  [("level", .str input.GradeLevel)] db2.grade_levels with
              | .error _ =>
                ⟨httpError "Failed to update grade level" StatusInternalServerError, db2,
                  [⟨.students, .updateOne, true⟩, ⟨.classes, .updateOne, true⟩,
                    ⟨.grade_levels, .updateOne, false⟩]⟩
              | .ok (_, gradeLevels) =>
                ⟨⟨StatusOK, .json "message" "Student updated successfully"⟩,
                  { db2 with grade_levels := gradeLevels },
                  [⟨.students, .updateOne, true⟩, ⟨.classes, .updateOne, true⟩,
                    ⟨.grade_levels, .updateOne, true⟩]⟩

/-- The handler `StudentController.GetStudentByID`. -/
def GetStudentByID (env : Env) (studentID : String) (db : DB) : Result :=
  if studentID = "" then ⟨httpError "student_id is required" StatusBadRequest, db, []⟩
  else
    match ObjectIDFromHex studentID with
    | none => ⟨httpError "Invalid student_id format" StatusBadRequest, db, []⟩
    | some objectID =>
      match FindOne (env.fault .students) ("_id", .objectID objectID) db.students with
      | .error err =>
        if err = .noDocuments then
          ⟨httpError "Student not found" StatusNotFound, db, [⟨.students, .findOne, false⟩]⟩
        else
          ⟨httpError "Error retrieving student" StatusInternalServerError, db,
            [⟨.students, .findOne, false⟩]⟩
      | .ok student => ⟨⟨StatusOK, .student student⟩, db, [⟨.students, .findOne, true⟩]⟩

/-- The handler `StudentController.DeleteStudent`. -/
def DeleteStudent (env : Env) (studentID : String) (db : DB) : Result :=
  if studentID = "" then ⟨httpError "student_id is required" StatusBadRequest, db, []⟩
  else
    match ObjectIDFromHex studentID with
    | none => ⟨httpError "Invalid student_id format" StatusBadRequest, db, []⟩
    | some objectID =>
      match DeleteOne (env.fault .students) ("_id", .objectID objectID) db.students with
      | .error _ =>
        ⟨httpError "Failed to delete student" StatusInternalServerError, db,
          [⟨.students, .deleteOne, false⟩]⟩
      | .ok students =>
        let db1 := { db with students := students }
        match DeleteOne (env.fault .grade_levels) ("student_id", .objectID objectID)
            db1.grade_levels with
        | .error _ =>
          ⟨httpError "Failed to delete grade level" StatusInternalServerError, db1,
            [⟨.students, .deleteOne, true⟩, ⟨.grade_levels, .deleteOne, false⟩]⟩
        | .ok gradeLevels =>
          let db2 := { db1 with grade_levels := gradeLevels }
          match DeleteOne (env.fault .classes) ("student_id", .objectID objectID)
              db2.classes with
          | .error _ =>
            ⟨httpError "Failed to delete class" StatusInternalServerError, db2,
              [⟨.students, .deleteOne, true⟩, ⟨.grade_levels, .deleteOne, true⟩,
                ⟨.classes, .deleteOne, false⟩]⟩
          | .ok classes =>
            ⟨⟨StatusOK, .json "message" "Student deleted successfully"⟩,
              { db2 with classes := classes },
              [⟨.students, .deleteOne, true⟩, ⟨.grade_levels, .deleteOne, true⟩,
                ⟨.classes, .deleteOne, true⟩]⟩

/-- The query parameters of `/search-students`, each as `r.URL.Query().Get` returns it: the
empty string when the parameter is absent. -/
structure SearchQuery where
  class_name : String
  grade_level : String
  first_name : String
  last_name : String
deriving DecidableEq

/-- The filter built by `SearchStudents` from the query parameters. -/
def searchFilter (q : SearchQuery) : Filter :=
  let filter : Filter := []
  let filter := if q.class_name ≠ "" then filter.set "class_name" ⟨q.class_name, "i"⟩ else filter
  let filter :=
    if q.grade_level ≠ "" then filter.set "grade_level" ⟨q.grade_level, "i"⟩ else filter
  let filter :=
    if q.first_name ≠ "" then filter.set "first_name" ⟨q.first_name, "i"⟩ else filter
  let filter := if q.last_name ≠ "" then filter.set "last_name" ⟨q.last_name, "i"⟩ else filter
  filter

/-- The handler `StudentController.SearchStudents`.  Documents of the typed collection always
decode, so the decoding error inside the loop does not arise. -/
def SearchStudents (env : Env) (q : SearchQuery) (db : DB) : Result :=
  let filter := searchFilter q
  match Find env (env.fault .students) filter db.students with
  | .error _ =>
    ⟨httpError ("Failed to search students: " ++ env.errText) StatusInternalServerError, db,
      [⟨.students, .find, false⟩]⟩
  | .ok students =>
    if env.cursorFault then
      ⟨httpError ("Cursor error: " ++ env.errText) StatusInternalServerError, db,
        [⟨.students, .find, true⟩]⟩
    else if students.length = 0 then
      ⟨⟨StatusNotFound, .json "error" "No students found"⟩, db, [⟨.students, .find, true⟩]⟩
    else ⟨⟨StatusOK, .students students⟩, db, [⟨.students, .find, true⟩]⟩

/-! ## Notions used in the statements -/

/-- A hexadecimal digit, of either case. -/
def IsHexDigit (c : Char) : Prop :=
  ('0' ≤ c ∧ c ≤ '9') ∨ ('a' ≤ c ∧ c ≤ 'f') ∨ ('A' ≤ c ∧ c ≤ 'F')

/-- The key format of the store: 24 hexadecimal digits. -/
def WellFormedID (s : String) : Prop := s.length = 24 ∧ ∀ c ∈ s.data, IsHexDigit c

/-- Cross-collection consistency: the dependents that refer to a stored student by the string
form of its identifier carry the student's class name and grade level. -/
def Consistent (db : DB) : Prop :=
  ∀ s ∈ db.students,
    (∀ c ∈ db.classes, c.StudentID = s.ID.Hex →
      c.ClassName = s.ClassName ∧ c.GradeLevel = s.GradeLevel) ∧
    (∀ g ∈ db.grade_levels, g.StudentID = s.ID.Hex → g.Level = s.GradeLevel)

instance (db : DB) : Decidable (Consistent db) := by
  unfold Consistent; infer_instance

/-- No store call of the request returned an error. -/
def FailureFree (r : Result) : Prop := ∀ c ∈ r.calls, c.ok = true

instance (r : Result) : Decidable (FailureFree r) := by
  unfold FailureFree; infer_instance

/-- The store states reachable from the empty store by create, update and delete requests in
which no store call returns an error. -/
inductive Reachable : DB → Prop where
  | empty : Reachable ⟨[], [], []⟩
  | create (env : Env) (body : Except String Input) (db : DB) :
      Reachable db → FailureFree (CreateStudent env body db) →
      Reachable (CreateStudent env body db).db
  | update (env : Env) (studentID : String) (body : Except String Input) (db : DB) :
      Reachable db → FailureFree (UpdateStudent env studentID body db) →
      Reachable (UpdateStudent env studentID body db).db
  | delete (env : Env) (studentID : String) (db : DB) :
      Reachable db → FailureFree (DeleteStudent env studentID db) →
      Reachable (DeleteStudent env studentID db).db

/-- The store calls were issued in the given order of collections, and only the last one may
have failed. -/
def StopsAtFirstFailure (order : List Coll) (calls : List StoreCall) : Prop :=
  calls.map StoreCall.coll <+: order ∧ ∀ c ∈ calls.dropLast, c.ok = true

/-- The field contains `q` as a substring when characters are compared up to the caseless
equivalence `fold`. -/
def ContainsFold (fold : Char → Char) (q field : String) : Prop :=
  q.data.map fold <:+: field.data.map fold

instance (fold : Char → Char) (q field : String) : Decidable (ContainsFold fold q field) :=
  inferInstanceAs (Decidable (_ <:+: _))

/-- The student satisfies each filter that is given (non-empty), as a substring. -/
def MatchesQuery (fold : Char → Char) (q : SearchQuery) (s : Student) : Prop :=
  (q.class_name ≠ "" → ContainsFold fold q.class_name s.ClassName) ∧
  (q.grade_level ≠ "" → ContainsFold fold q.grade_level s.GradeLevel) ∧
  (q.first_name ≠ "" → ContainsFold fold q.first_name s.FirstName) ∧
  (q.last_name ≠ "" → ContainsFold fold q.last_name s.LastName)

instance (fold : Char → Char) (q : SearchQuery) (s : Student) :
    Decidable (MatchesQuery fold q s) := by
  unfold MatchesQuery; infer_instance

/-- No character of the string has a special meaning in a pattern. -/
def MetaFree (q : String) : Prop := ∀ c ∈ q.data, c ∉ regexMeta

instance (q : String) : Decidable (MetaFree q) := by
  unfold MetaFree; infer_instance

/-- Runs without store errors in which `primitive.NewObjectID()` never hands out an identifier
twice and every update names the student by the lower-case string of the identifier; the list
holds the identifiers handed out so far. -/
inductive ReachableCanonical : List ObjectID → DB → Prop where
  | empty : ReachableCanonical [] ⟨[], [], []⟩
  | create (env : Env) (body : Except String Input) (used : List ObjectID) (db : DB) :
      ReachableCanonical used db → env.studentID ∉ used →
      FailureFree (CreateStudent env body db) →
      ReachableCanonical (env.studentID :: used) (CreateStudent env body db).db
  | update (env : Env) (objectID : ObjectID) (body : Except String Input)
      (used : List ObjectID) (db : DB) :
      ReachableCanonical used db →
      FailureFree (UpdateStudent env objectID.Hex body db) →
      ReachableCanonical used (UpdateStudent env objectID.Hex body db).db
  | delete (env : Env) (studentID : String) (used : List ObjectID) (db : DB) :
      ReachableCanonical used db → FailureFree (DeleteStudent env studentID db) →
      ReachableCanonical used (DeleteStudent env studentID db).db

/-- The invariant of the canonical runs: identifiers of students are handed-out ones and
pairwise distinct, every dependent refers to a handed-out identifier, no two dependents of a
collection refer to the same one, and the collections are consistent. -/
structure WellLinked (used : List ObjectID) (db : DB) : Prop where
  ids : ∀ s ∈ db.students, s.ID ∈ used
  idsNodup : (db.students.map Student.ID).Nodup
  classRef : ∀ c ∈ db.classes, ∃ o ∈ used, c.StudentID = ObjectID.Hex o
  gradeRef : ∀ g ∈ db.grade_levels, ∃ o ∈ used, g.StudentID = ObjectID.Hex o
  classNodup : (db.classes.map Class.StudentID).Nodup
  gradeNodup : (db.grade_levels.map GradeLevel.StudentID).Nodup
  consistent : Consistent db

/-! ## Sample data -/

/-- The identifier `65a1b2c3d4e5f60718293a4b`. -/
def oidA : ObjectID :=
  ⟨[0x65, 0xa1, 0xb2, 0xc3, 0xd4, 0xe5, 0xf6, 0x07, 0x18, 0x29, 0x3a, 0x4b], rfl⟩

/-- The identifier `65a1b2c3d4e5f60718293a4c`. -/
def oidB : ObjectID :=
  ⟨[0x65, 0xa1, 0xb2, 0xc3, 0xd4, 0xe5, 0xf6, 0x07, 0x18, 0x29, 0x3a, 0x4c], rfl⟩

/-- The identifier `65a1b2c3d4e5f60718293a4d`. -/
def oidC : ObjectID :=
  ⟨[0x65, 0xa1, 0xb2, 0xc3, 0xd4, 0xe5, 0xf6, 0x07, 0x18, 0x29, 0x3a, 0x4d], rfl⟩

/-- An environment in which no store call fails, handing out `oidA`, `oidB`, `oidC`; the
caseless equivalence is that of the ASCII letters. -/
def envOk : Env :=
  ⟨fun _ => false, oidA, oidB, oidC, false, "", Char.toLower, fun _ _ => none⟩

/-- The environment `envOk` with failing calls on one collection. -/
def envDown (down : Coll) : Env :=
  ⟨fun c => decide (c = down), oidA, oidB, oidC, false, "context deadline exceeded",
    Char.toLower, fun _ _ => none⟩

def ann : Input := ⟨"Ann", "Lee", "1 Main St", "5A", "5"⟩

def annMoved : Input := ⟨"Ann", "Lee", "1 Main St", "6B", "6"⟩

def emptyDB : DB := ⟨[], [], []⟩

/-- The store after `ann` was created in the empty store. -/
def annDB : DB := (CreateStudent envOk (.ok ann) emptyDB).db

/-! ## Lemmas on the store calls -/

theorem InsertOne_ok_iff {α : Type} [Document α] (fault : Bool) (doc : α) (coll out : List α) :
    InsertOne fault doc coll = .ok out ↔
      fault = false ∧
      (coll.any (fun d => (Document.toDoc d).lookup "_id" == (Document.toDoc doc).lookup "_id"))
        = false ∧
      out = coll ++ [doc] := by
  unfold InsertOne
  cases fault <;> simp
  split <;> simp_all
  constructor <;> intro h <;> exact h.symm

theorem student_id_lookup (s : Student) :
    (Document.toDoc s).lookup "_id" = some (.objectID s.ID) := by
  simp [Document.toDoc, List.lookup]

theorem matchEq_student_id (o : ObjectID) (s : Student) :
    matchEq ("_id", BsonValue.objectID o) s = true ↔ s.ID = o := by
  simp [matchEq, Document.toDoc, List.lookup]

theorem matchEq_class_objectID (o : ObjectID) (c : Class) :
    matchEq ("student_id", BsonValue.objectID o) c = false := by
  simp [matchEq, Document.toDoc, List.lookup]

theorem matchEq_gradeLevel_objectID (o : ObjectID) (g : GradeLevel) :
    matchEq ("student_id", BsonValue.objectID o) g = false := by
  simp [matchEq, Document.toDoc, List.lookup]

theorem matchEq_class_str (v : String) (c : Class) :
    matchEq ("student_id", BsonValue.str v) c = true ↔ c.StudentID = v := by
  simp [matchEq, Document.toDoc, List.lookup]

theorem matchEq_gradeLevel_str (v : String) (g : GradeLevel) :
    matchEq ("student_id", BsonValue.str v) g = true ↔ g.StudentID = v := by
  simp [matchEq, Document.toDoc, List.lookup]

theorem updateFirst_no_match {α : Type} (p : α → Bool) (f : α → α) (l : List α)
    (h : ∀ d ∈ l, p d = false) : updateFirst p f l = (0, l) := by
  induction l with
  | nil => rfl
  | cons d ds ih =>
    have hd : p d = false := h d (List.mem_cons_self _ _)
    have ht : ∀ e ∈ ds, p e = false := fun e he => h e (List.mem_cons_of_mem _ he)
    simp [updateFirst, hd, ih ht]

theorem updateFirst_matched {α : Type} (p : α → Bool) (f : α → α) (l : List α) :
    (updateFirst p f l).1 = 0 ↔ ∀ d ∈ l, p d = false := by
  induction l with
  | nil => simp [updateFirst]
  | cons d ds ih =>
    by_cases hd : p d = true
    · simp [updateFirst, hd]
    · simp [updateFirst, hd, ih]

theorem deleteFirst_no_match {α : Type} (p : α → Bool) (l : List α)
    (h : ∀ d ∈ l, p d = false) : deleteFirst p l = l := by
  induction l with
  | nil => rfl
  | cons d ds ih =>
    have hd : p d = false := h d (List.mem_cons_self _ _)
    have ht : ∀ e ∈ ds, p e = false := fun e he => h e (List.mem_cons_of_mem _ he)
    simp [deleteFirst, hd, ih ht]

theorem ObjectIDFromHex_ne_empty (s : String) (o : ObjectID) (h : ObjectIDFromHex s = some o) :
    s ≠ "" := by
  rintro rfl
  simp [ObjectIDFromHex] at h


theorem updateFirst_matched_le {α : Type} (p : α → Bool) (f : α → α) (l : List α) :
    (updateFirst p f l).1 ≠ 0 ↔ ∃ d ∈ l, p d = true := by
  rw [Ne, updateFirst_matched]
  simp


/-! ## Lemmas on identifiers -/

theorem fromHexChar_isSome (c : Char) : (fromHexChar c).isSome = true ↔ IsHexDigit c := by
  unfold fromHexChar IsHexDigit
  split_ifs with h1 h2 h3 <;> simp [*]


theorem hexDecode_cons_cons (a b : Char) (rest : List Char) :
    hexDecode (a :: b :: rest) =
      match fromHexChar a, fromHexChar b, hexDecode rest with
      | some x, some y, some bs => some (⟨(x * 16 + y) % 256, Nat.mod_lt _ (by decide)⟩ :: bs)
      | _, _, _ => none := by
  rw [hexDecode]

theorem hexDecode_spec (n : Nat) : ∀ l : List Char, l.length ≤ n →
    (((hexDecode l).isSome = true ↔ l.length % 2 = 0 ∧ ∀ c ∈ l, IsHexDigit c) ∧
      ∀ bs, hexDecode l = some bs → l.length = 2 * bs.length) := by
  induction n with
  | zero =>
    intro l hl
    have : l = [] := List.length_eq_zero.mp (by omega)
    subst this
    simp [hexDecode]
  | succ n ih =>
    intro l hl
    rcases l with _ | ⟨a, _ | ⟨b, rest⟩⟩
    · simp [hexDecode]
    · simp [hexDecode]
    · have hlen : rest.length ≤ n := by simp at hl; omega
      obtain ⟨hr1, hr2⟩ := ih rest hlen
      have ha := fromHexChar_isSome a
      have hb := fromHexChar_isSome b
      have hpar : (a :: b :: rest).length % 2 = rest.length % 2 := by
        simp only [List.length_cons]; omega
      rw [hexDecode_cons_cons, hpar]
      cases hx : fromHexChar a with
      | none =>
        rw [hx] at ha
        have : ¬ IsHexDigit a := fun h => by simpa using ha.mpr h
        simp [this]
      | some x =>
        rw [hx] at ha
        have hA : IsHexDigit a := ha.mp rfl
        cases hy : fromHexChar b with
        | none =>
          rw [hy] at hb
          have : ¬ IsHexDigit b := fun h => by simpa using hb.mpr h
          simp [this]
        | some y =>
          rw [hy] at hb
          have hB : IsHexDigit b := hb.mp rfl
          cases hd : hexDecode rest with
          | none =>
            rw [hd] at hr1
            simp only [Option.isSome_none, Bool.false_eq_true, false_iff] at hr1
            simp only [Option.isSome_none, Bool.false_eq_true, false_iff, List.mem_cons,
              forall_eq_or_imp, hA, hB, true_and]
            exact ⟨hr1, by simp⟩
          | some bs =>
            rw [hd] at hr1
            have h2 := hr2 bs hd
            simp only [Option.isSome_some, true_iff] at hr1
            simp only [Option.isSome_some, true_iff, List.mem_cons, forall_eq_or_imp, hA, hB,
              true_and]
            refine ⟨hr1, ?_⟩
            intro bs2 hbs2
            simp only [Option.some.injEq] at hbs2
            subst hbs2
            simp only [List.length_cons]
            omega

theorem ObjectIDFromHex_isSome_iff (s : String) :
    (ObjectIDFromHex s).isSome = true ↔ WellFormedID s := by
  unfold ObjectIDFromHex WellFormedID
  have hsl : s.data.length = s.length := rfl
  rw [hsl]
  by_cases hl : s.length = 24
  · have hd := (hexDecode_spec _ s.data (le_refl _)).1
    have hlen := (hexDecode_spec _ s.data (le_refl _)).2
    cases hdec : hexDecode s.data with
    | none => simp_all
    | some bs =>
      have := hlen bs hdec
      have h12 : bs.length = 12 := by rw [hsl] at this; omega
      simp_all
  · simp [hl]

theorem fromHexChar_hextable :
    ∀ n : Fin 16, fromHexChar (hextable.getD n.val '0') = some n.val := by decide

theorem hexDecode_hexEncode (bs : List Byte) : hexDecode (hexEncode bs) = some bs := by
  induction bs with
  | nil => rfl
  | cons v vs ih =>
    have h1 := fromHexChar_hextable ⟨v.val / 16, by omega⟩
    have h2 := fromHexChar_hextable ⟨v.val % 16, by omega⟩
    simp only at h1 h2
    simp only [hexEncode, hexDecode_cons_cons, h1, h2, ih]
    congr 2
    apply Fin.ext
    simp only
    omega

theorem hexEncode_length (bs : List Byte) : (hexEncode bs).length = 2 * bs.length := by
  induction bs with
  | nil => rfl
  | cons v vs ih => simp only [hexEncode, List.length_cons, ih]; omega

theorem ObjectIDFromHex_Hex (o : ObjectID) : ObjectIDFromHex o.Hex = some o := by
  have hl : (hexEncode o.val).length = 24 := by rw [hexEncode_length, o.property]
  simp [ObjectIDFromHex, ObjectID.Hex, hl, hexDecode_hexEncode, o.property]

/-! ## Lemmas on deletion -/

theorem deleteFirst_append_last {α : Type} (p : α → Bool) (l : List α) (d : α)
    (h : ∀ x ∈ l, p x = false) (hd : p d = true) : deleteFirst p (l ++ [d]) = l := by
  induction l with
  | nil => simp [deleteFirst, hd]
  | cons x xs ih =>
    have hx : p x = false := h x (List.mem_cons_self _ _)
    have ht := ih (fun y hy => h y (List.mem_cons_of_mem _ hy))
    simp [deleteFirst, hx, ht]

theorem deleteStudent_dependents (env : Env) (studentID : String) (db : DB) :
    (DeleteStudent env studentID db).db.classes = db.classes ∧
      (DeleteStudent env studentID db).db.grade_levels = db.grade_levels := by
  have hc : ∀ o : ObjectID, deleteFirst (matchEq ("student_id", BsonValue.objectID o)) db.classes
      = db.classes := fun o =>
    deleteFirst_no_match _ _ (fun c _ => matchEq_class_objectID o c)
  have hg : ∀ o : ObjectID,
      deleteFirst (matchEq ("student_id", BsonValue.objectID o)) db.grade_levels
      = db.grade_levels := fun o =>
    deleteFirst_no_match _ _ (fun g _ => matchEq_gradeLevel_objectID o g)
  unfold DeleteStudent
  split
  · simp
  · split
    · simp
    · rename_i o _
      simp only [DeleteOne]
      cases env.fault .students <;> cases env.fault .grade_levels <;>
        cases env.fault .classes <;> simp [hc o, hg o]


/-! ## Lemmas on regular expression filters -/

theorem parseRegex_metaFree (l : List Char) (h : ∀ c ∈ l, c ∉ regexMeta) :
    parseRegex l = some (l.map RegexAtom.lit) := by
  induction l with
  | nil => rfl
  | cons c cs ih =>
    have hc : c ∉ regexMeta := h c (List.mem_cons_self _ _)
    have hdot : c ≠ '.' := by
      rintro rfl
      exact hc (by decide)
    have ht := ih (fun d hd => h d (List.mem_cons_of_mem _ hd))
    simp [parseRegex, hdot, hc, ht]

theorem matchHere_lit (fold : Char → Char) (l text : List Char) :
    matchHere fold true (l.map RegexAtom.lit) text = true ↔
      l.map fold <+: text.map fold := by
  induction l generalizing text with
  | nil => simp [matchHere]
  | cons c cs ih =>
    cases text with
    | nil => simp [matchHere]
    | cons t ts => simp [matchHere, RegexAtom.accepts, ih]

theorem regexSearch_lit (fold : Char → Char) (l text : List Char) :
    regexSearch fold true (l.map RegexAtom.lit) text = true ↔
      l.map fold <:+: text.map fold := by
  induction text with
  | nil =>
    simp only [regexSearch, matchHere_lit, List.map_nil]
    constructor
    · exact fun h => h.isInfix
    · intro h
      have := List.eq_nil_of_infix_nil h
      rw [this]
  | cons t ts ih =>
    simp only [regexSearch, Bool.or_eq_true, matchHere_lit, ih, List.map_cons]
    exact List.infix_cons_iff.symm

theorem compile_metaFree (env : Env) (q : String) (h : MetaFree q) :
    RegexCond.compile env ⟨q, "i"⟩ =
      some (regexSearch env.fold true (q.data.map RegexAtom.lit)) := by
  unfold RegexCond.compile
  simp only [parseRegex_metaFree q.data h]
  rfl

theorem find_searchFilter (env : Env) (q : SearchQuery) (students : List Student)
    (h1 : MetaFree q.class_name) (h2 : MetaFree q.grade_level)
    (h3 : MetaFree q.first_name) (h4 : MetaFree q.last_name) :
    Find env false (searchFilter q) students =
      .ok (students.filter (fun s => decide (MatchesQuery env.fold q s))) := by
  have c1 := compile_metaFree env _ h1
  have c2 := compile_metaFree env _ h2
  have c3 := compile_metaFree env _ h3
  have c4 := compile_metaFree env _ h4
  unfold Find
  simp only [Bool.false_eq_true, if_false]
  by_cases e1 : q.class_name = "" <;> by_cases e2 : q.grade_level = "" <;>
    by_cases e3 : q.first_name = "" <;> by_cases e4 : q.last_name = "" <;>
    simp only [searchFilter, Filter.set, e1, e2, e3, e4, ne_eq, not_true_eq_false,
      not_false_eq_true, if_true, if_false, List.filter_nil, List.nil_append, List.filter_cons,
      List.cons_append, bne_iff_ne, Filter.compile, c1, c2, c3, c4] <;>
    simp <;>
    (apply List.filter_congr; intro s _; rw [Bool.eq_iff_iff]
     simp [satisfies, Document.toDoc, List.lookup, MatchesQuery, ContainsFold, regexSearch_lit,
       e1, e2, e3, e4])

theorem compile_keys (env : Env) (filter : Filter)
    (conds : List (String × (List Char → Bool))) (h : filter.compile env = some conds) :
    conds.map Prod.fst = filter.map Prod.fst := by
  induction filter generalizing conds with
  | nil =>
    simp only [Filter.compile, Option.some.injEq] at h
    subst h
    rfl
  | cons e rest ih =>
    obtain ⟨k, cond⟩ := e
    unfold Filter.compile at h
    cases hc : cond.compile env with
    | none => simp [hc] at h
    | some re =>
      cases hr : Filter.compile env rest with
      | none => simp [hc, hr] at h
      | some res =>
        simp only [hc, hr, Option.some.injEq] at h
        subst h
        simp [ih res hr]

theorem searchFilter_eq (q : SearchQuery) :
    searchFilter q =
      ([("class_name", q.class_name), ("grade_level", q.grade_level),
        ("first_name", q.first_name), ("last_name", q.last_name)].filter
          (fun e => e.2 != "")).map (fun e => (e.1, (⟨e.2, "i"⟩ : RegexCond))) := by
  by_cases e1 : q.class_name = "" <;> by_cases e2 : q.grade_level = "" <;>
    by_cases e3 : q.first_name = "" <;> by_cases e4 : q.last_name = "" <;>
    simp [searchFilter, Filter.set, e1, e2, e3, e4]

/-! ## Lemmas on creation -/

theorem createStudent_ok (env : Env) (input : Input) (db : DB)
    (h : (CreateStudent env (.ok input) db).calls =
      [⟨.students, .insertOne, true⟩, ⟨.grade_levels, .insertOne, true⟩,
        ⟨.classes, .insertOne, true⟩]) :
    (CreateStudent env (.ok input) db).resp =
        ⟨StatusCreated, .student ⟨env.studentID, input.FirstName, input.LastName, input.Address,
          input.GradeLevel, input.ClassName⟩⟩ ∧
      (∀ s ∈ db.students, s.ID ≠ env.studentID) ∧
      (CreateStudent env (.ok input) db).db.students =
        db.students ++ [⟨env.studentID, input.FirstName, input.LastName, input.Address,
          input.GradeLevel, input.ClassName⟩] ∧
      (CreateStudent env (.ok input) db).db.grade_levels =
        db.grade_levels ++ [⟨env.gradeLevelDocID, env.studentID.Hex, input.GradeLevel⟩] ∧
      (CreateStudent env (.ok input) db).db.classes =
        db.classes ++ [⟨env.classDocID, env.studentID.Hex, input.ClassName, input.GradeLevel⟩]
    := by
  unfold CreateStudent at h ⊢
  simp only at h ⊢
  split at h
  · simp at h
  · rename_i students h1
    split at h
    · simp at h
    · rename_i gls h2
      split at h
      · simp at h
      · rename_i cls h3
        rw [InsertOne_ok_iff] at h1 h2 h3
        obtain ⟨_, hdup, rfl⟩ := h1
        obtain ⟨_, _, rfl⟩ := h2
        obtain ⟨_, _, rfl⟩ := h3
        refine ⟨rfl, ?_, rfl, rfl, rfl⟩
        intro s hs heq
        simp only [List.any_eq_false] at hdup
        have := hdup s hs
        simp [student_id_lookup, heq] at this

/-! ## Consistency in canonical runs -/

theorem Hex_injective (a b : ObjectID) (h : a.Hex = b.Hex) : a = b := by
  have ha := ObjectIDFromHex_Hex a
  rw [h, ObjectIDFromHex_Hex b] at ha
  exact (Option.some.inj ha).symm

theorem updateFirst_eq_map {α κ : Type} (key : α → κ) (k : κ) (p : α → Bool) (f : α → α)
    (hp : ∀ d, p d = true ↔ key d = k) (l : List α) (hnd : (l.map key).Nodup) :
    (updateFirst p f l).2 = l.map (fun d => if p d = true then f d else d) := by
  induction l with
  | nil => rfl
  | cons d ds ih =>
    rw [List.map_cons, List.nodup_cons] at hnd
    by_cases hd : p d = true
    · have hrest : ∀ e ∈ ds, p e = false := by
        intro e he
        rw [← Bool.not_eq_true, hp]
        intro hk
        apply hnd.1
        rw [(hp d).mp hd, ← hk]
        exact List.mem_map_of_mem key he
      have hmap : ds.map (fun d => if p d = true then f d else d) = ds := by
        conv_rhs => rw [← List.map_id ds]
        apply List.map_congr_left
        intro e he
        simp [hrest e he]
      simp [updateFirst, hd, hmap]
    · simp [updateFirst, hd, ih hnd.2]

theorem updateFirst_unmatched {α : Type} (p : α → Bool) (f : α → α) (l : List α)
    (h : (updateFirst p f l).1 = 0) : (updateFirst p f l).2 = l := by
  rw [updateFirst_matched] at h
  rw [updateFirst_no_match p f l h]

theorem deleteFirst_sublist {α : Type} (p : α → Bool) (l : List α) :
    (deleteFirst p l).Sublist l := by
  induction l with
  | nil => exact List.Sublist.refl _
  | cons d ds ih =>
    unfold deleteFirst
    split
    · exact List.sublist_cons_self d ds
    · exact ih.cons₂ d

theorem applySet_student (input : Input) (s : Student) :
    applySet [("first_name", .str input.FirstName), ("last_name", .str input.LastName),
      ("address", .str input.Address), ("class_name", .str input.ClassName),
      ("grade_level", .str input.GradeLevel)] s =
      ⟨s.ID, input.FirstName, input.LastName, input.Address, input.GradeLevel,
        input.ClassName⟩ := rfl

theorem applySet_class (input : Input) (c : Class) :
    applySet [("class_name", .str input.ClassName), ("grade_level", .str input.GradeLevel)] c =
      ⟨c.ID, c.StudentID, input.ClassName, input.GradeLevel⟩ := rfl

theorem applySet_gradeLevel (input : Input) (g : GradeLevel) :
    applySet [("level", .str input.GradeLevel)] g = ⟨g.ID, g.StudentID, input.GradeLevel⟩ := rfl

theorem createStudent_failureFree (env : Env) (input : Input) (db : DB)
    (h : FailureFree (CreateStudent env (.ok input) db)) :
    (CreateStudent env (.ok input) db).calls =
      [⟨.students, .insertOne, true⟩, ⟨.grade_levels, .insertOne, true⟩,
        ⟨.classes, .insertOne, true⟩] := by
  unfold FailureFree at h
  unfold CreateStudent at h ⊢
  simp only at h ⊢
  split
  · rename_i h1; simp [h1] at h
  · rename_i h1
    simp only [h1] at h
    split
    · rename_i h2; simp [h2] at h
    · rename_i h2
      simp only [h2] at h
      split
      · rename_i h3; simp [h3] at h
      · rfl

theorem wellLinked_mono (o : ObjectID) (used : List ObjectID) (db : DB)
    (h : WellLinked used db) : WellLinked (o :: used) db where
  ids := fun s hs => List.mem_cons_of_mem _ (h.ids s hs)
  idsNodup := h.idsNodup
  classRef := fun c hc =>
    let ⟨o', ho', e⟩ := h.classRef c hc
    ⟨o', List.mem_cons_of_mem _ ho', e⟩
  gradeRef := fun g hg =>
    let ⟨o', ho', e⟩ := h.gradeRef g hg
    ⟨o', List.mem_cons_of_mem _ ho', e⟩
  classNodup := h.classNodup
  gradeNodup := h.gradeNodup
  consistent := h.consistent

theorem wellLinked_create (env : Env) (body : Except String Input) (used : List ObjectID)
    (db : DB) (h : WellLinked used db) (hfresh : env.studentID ∉ used)
    (hff : FailureFree (CreateStudent env body db)) :
    WellLinked (env.studentID :: used) (CreateStudent env body db).db := by
  cases body with
  | error e => exact wellLinked_mono _ _ _ h
  | ok input =>
    obtain ⟨_, _, hs, hg, hc⟩ :=
      createStudent_ok env input db (createStudent_failureFree env input db hff)
    have hnew_s : ∀ s ∈ db.students, s.ID ≠ env.studentID :=
      fun s hs' heq => hfresh (heq ▸ h.ids s hs')
    have hnew_c : ∀ c ∈ db.classes, c.StudentID ≠ env.studentID.Hex := by
      intro c hc' heq
      obtain ⟨o, ho, e⟩ := h.classRef c hc'
      exact hfresh (Hex_injective _ _ (e.symm.trans heq) ▸ ho)
    have hnew_g : ∀ g ∈ db.grade_levels, g.StudentID ≠ env.studentID.Hex := by
      intro g hg' heq
      obtain ⟨o, ho, e⟩ := h.gradeRef g hg'
      exact hfresh (Hex_injective _ _ (e.symm.trans heq) ▸ ho)
    constructor
    · intro s hs'
      rw [hs, List.mem_append, List.mem_singleton] at hs'
      rcases hs' with hs' | rfl
      · exact List.mem_cons_of_mem _ (h.ids s hs')
      · exact List.mem_cons_self _ _
    · rw [hs, List.map_append, List.nodup_append]
      refine ⟨h.idsNodup, by simp, ?_⟩
      intro a ha hb
      simp only [List.map_cons, List.map_nil, List.mem_singleton] at hb
      obtain ⟨s, hs', rfl⟩ := List.mem_map.mp ha
      exact hnew_s s hs' hb
    · intro c hc'
      rw [hc, List.mem_append, List.mem_singleton] at hc'
      rcases hc' with hc' | rfl
      · obtain ⟨o, ho, e⟩ := h.classRef c hc'
        exact ⟨o, List.mem_cons_of_mem _ ho, e⟩
      · exact ⟨env.studentID, List.mem_cons_self _ _, rfl⟩
    · intro g hg'
      rw [hg, List.mem_append, List.mem_singleton] at hg'
      rcases hg' with hg' | rfl
      · obtain ⟨o, ho, e⟩ := h.gradeRef g hg'
        exact ⟨o, List.mem_cons_of_mem _ ho, e⟩
      · exact ⟨env.studentID, List.mem_cons_self _ _, rfl⟩
    · rw [hc, List.map_append, List.nodup_append]
      refine ⟨h.classNodup, by simp, ?_⟩
      intro a ha hb
      simp only [List.map_cons, List.map_nil, List.mem_singleton] at hb
      obtain ⟨c, hc', rfl⟩ := List.mem_map.mp ha
      exact hnew_c c hc' hb
    · rw [hg, List.map_append, List.nodup_append]
      refine ⟨h.gradeNodup, by simp, ?_⟩
      intro a ha hb
      simp only [List.map_cons, List.map_nil, List.mem_singleton] at hb
      obtain ⟨g, hg', rfl⟩ := List.mem_map.mp ha
      exact hnew_g g hg' hb
    · intro s hs'
      rw [hs, List.mem_append, List.mem_singleton] at hs'
      rw [hc, hg]
      rcases hs' with hs' | rfl
      · constructor
        · intro c hc' heq
          rw [List.mem_append, List.mem_singleton] at hc'
          rcases hc' with hc' | rfl
          · exact (h.consistent s hs').1 c hc' heq
          · exact absurd (Hex_injective _ _ heq).symm (hnew_s s hs')
        · intro g hg' heq
          rw [List.mem_append, List.mem_singleton] at hg'
          rcases hg' with hg' | rfl
          · exact (h.consistent s hs').2 g hg' heq
          · exact absurd (Hex_injective _ _ heq).symm (hnew_s s hs')
      · constructor
        · intro c hc' heq
          rw [List.mem_append, List.mem_singleton] at hc'
          rcases hc' with hc' | rfl
          · exact absurd heq (hnew_c c hc')
          · exact ⟨rfl, rfl⟩
        · intro g hg' heq
          rw [List.mem_append, List.mem_singleton] at hg'
          rcases hg' with hg' | rfl
          · exact absurd heq (hnew_g g hg')
          · rfl

theorem deleteStudent_students (env : Env) (studentID : String) (db : DB) :
    (DeleteStudent env studentID db).db.students.Sublist db.students := by
  unfold DeleteStudent
  split
  · exact List.Sublist.refl _
  · split
    · exact List.Sublist.refl _
    · simp only [DeleteOne]
      cases env.fault .students <;> cases env.fault .grade_levels <;>
        cases env.fault .classes <;> simp [deleteFirst_sublist]

theorem wellLinked_delete (env : Env) (studentID : String) (used : List ObjectID) (db : DB)
    (h : WellLinked used db) : WellLinked used (DeleteStudent env studentID db).db := by
  obtain ⟨hc, hg⟩ := deleteStudent_dependents env studentID db
  have hsub := deleteStudent_students env studentID db
  constructor
  · exact fun s hs => h.ids s (hsub.subset hs)
  · exact (hsub.map Student.ID).nodup h.idsNodup
  · rw [hc]; exact h.classRef
  · rw [hg]; exact h.gradeRef
  · rw [hc]; exact h.classNodup
  · rw [hg]; exact h.gradeNodup
  · intro s hs
    rw [hc, hg]
    exact h.consistent s (hsub.subset hs)

theorem updateStudent_db (env : Env) (objectID : ObjectID) (body : Except String Input)
    (db : DB) (hff : FailureFree (UpdateStudent env objectID.Hex body db)) :
    (UpdateStudent env objectID.Hex body db).db = db ∨
      ∃ input : Input, (UpdateStudent env objectID.Hex body db).db =
        ⟨(updateFirst (matchEq ("_id", BsonValue.objectID objectID))
            (applySet [("first_name", .str input.FirstName), ("last_name", .str input.LastName),
              ("address", .str input.Address), ("class_name", .str input.ClassName),
              ("grade_level", .str input.GradeLevel)]) db.students).2,
          (updateFirst (matchEq ("student_id", BsonValue.str objectID.Hex))
            (applySet [("class_name", .str input.ClassName),
              ("grade_level", .str input.GradeLevel)]) db.classes).2,
          (updateFirst (matchEq ("student_id", BsonValue.str objectID.Hex))
            (applySet [("level", .str input.GradeLevel)]) db.grade_levels).2⟩ := by
  have hne := ObjectIDFromHex_ne_empty _ _ (ObjectIDFromHex_Hex objectID)
  unfold FailureFree at hff
  unfold UpdateStudent at hff ⊢
  simp only [hne, if_false, ObjectIDFromHex_Hex, UpdateOne] at hff ⊢
  cases body with
  | error e => exact Or.inl rfl
  | ok input =>
    simp only at hff ⊢
    cases hs : env.fault .students
    · simp only [hs, Bool.false_eq_true, if_false] at hff ⊢
      split
      · rename_i h0
        left
        simp only
        rw [updateFirst_unmatched _ _ _ h0]
      · rename_i h0
        simp only [h0, if_false] at hff
        cases hc : env.fault .classes
        · simp only [hc, Bool.false_eq_true, if_false] at hff ⊢
          cases hg : env.fault .grade_levels
          · right
            exact ⟨input, by simp⟩
          · simp [hg] at hff
        · simp [hc] at hff
    · simp [hs] at hff

theorem wellLinked_update (env : Env) (objectID : ObjectID) (body : Except String Input)
    (used : List ObjectID) (db : DB) (h : WellLinked used db)
    (hff : FailureFree (UpdateStudent env objectID.Hex body db)) :
    WellLinked used (UpdateStudent env objectID.Hex body db).db := by
  rcases updateStudent_db env objectID body db hff with hdb | ⟨input, hdb⟩
  · rw [hdb]; exact h
  · rw [hdb,
      updateFirst_eq_map Student.ID objectID _ _ (matchEq_student_id objectID) _ h.idsNodup,
      updateFirst_eq_map Class.StudentID objectID.Hex _ _ (matchEq_class_str objectID.Hex) _
        h.classNodup,
      updateFirst_eq_map GradeLevel.StudentID objectID.Hex _ _
        (matchEq_gradeLevel_str objectID.Hex) _ h.gradeNodup]
    simp only [applySet_student, applySet_class, applySet_gradeLevel, matchEq_student_id,
      matchEq_class_str, matchEq_gradeLevel_str]
    have hsID : ∀ s : Student, (if s.ID = objectID then
        (⟨s.ID, input.FirstName, input.LastName, input.Address, input.GradeLevel,
          input.ClassName⟩ : Student) else s).ID = s.ID := by
      intro s; split <;> rfl
    have hcID : ∀ c : Class, (if c.StudentID = objectID.Hex then
        (⟨c.ID, c.StudentID, input.ClassName, input.GradeLevel⟩ : Class) else c).StudentID
          = c.StudentID := by
      intro c; split <;> rfl
    have hgID : ∀ g : GradeLevel, (if g.StudentID = objectID.Hex then
        (⟨g.ID, g.StudentID, input.GradeLevel⟩ : GradeLevel) else g).StudentID
          = g.StudentID := by
      intro g; split <;> rfl
    constructor
    · intro s' hs'
      obtain ⟨s, hs, rfl⟩ := List.mem_map.mp hs'
      rw [hsID]
      exact h.ids s hs
    · have : ∀ l : List Student, (l.map fun s => if s.ID = objectID then
          (⟨s.ID, input.FirstName, input.LastName, input.Address, input.GradeLevel,
            input.ClassName⟩ : Student) else s).map Student.ID = l.map Student.ID := by
        intro l
        rw [List.map_map]
        exact List.map_congr_left (fun s _ => hsID s)
      simp only at this ⊢
      rw [this]
      exact h.idsNodup
    · intro c' hc'
      obtain ⟨c, hc, rfl⟩ := List.mem_map.mp hc'
      rw [hcID]
      exact h.classRef c hc
    · intro g' hg'
      obtain ⟨g, hg, rfl⟩ := List.mem_map.mp hg'
      rw [hgID]
      exact h.gradeRef g hg
    · have : ∀ l : List Class, (l.map fun c => if c.StudentID = objectID.Hex then
          (⟨c.ID, c.StudentID, input.ClassName, input.GradeLevel⟩ : Class) else c).map
            Class.StudentID = l.map Class.StudentID := by
        intro l
        rw [List.map_map]
        exact List.map_congr_left (fun c _ => hcID c)
      simp only at this ⊢
      rw [this]
      exact h.classNodup
    · have : ∀ l : List GradeLevel, (l.map fun g => if g.StudentID = objectID.Hex then
          (⟨g.ID, g.StudentID, input.GradeLevel⟩ : GradeLevel) else g).map
            GradeLevel.StudentID = l.map GradeLevel.StudentID := by
        intro l
        rw [List.map_map]
        exact List.map_congr_left (fun g _ => hgID g)
      simp only at this ⊢
      rw [this]
      exact h.gradeNodup
    · intro s' hs'
      obtain ⟨s, hs, rfl⟩ := List.mem_map.mp hs'
      constructor
      · intro c' hc' heq
        obtain ⟨c, hc, rfl⟩ := List.mem_map.mp hc'
        rw [hcID, hsID] at heq
        by_cases hso : s.ID = objectID
        · have hco : c.StudentID = objectID.Hex := by rw [heq, hso]
          simp [hso, hco]
        · have hco : c.StudentID ≠ objectID.Hex := by
            rw [heq]
            exact fun e => hso (Hex_injective _ _ e)
          simp only [hso, hco, if_false]
          exact (h.consistent s hs).1 c hc heq
      · intro g' hg' heq
        obtain ⟨g, hg, rfl⟩ := List.mem_map.mp hg'
        rw [hgID, hsID] at heq
        by_cases hso : s.ID = objectID
        · have hgo : g.StudentID = objectID.Hex := by rw [heq, hso]
          simp [hso, hgo]
        · have hgo : g.StudentID ≠ objectID.Hex := by
            rw [heq]
            exact fun e => hso (Hex_injective _ _ e)
          simp only [hso, hgo, if_false]
          exact (h.consistent s hs).2 g hg heq

theorem reachableCanonical_wellLinked (used : List ObjectID) (db : DB)
    (h : ReachableCanonical used db) : WellLinked used db := by
  induction h with
  | empty =>
    exact ⟨by simp, by simp, by simp, by simp, by simp, by simp, by simp [Consistent]⟩
  | create env body used db _ hfresh hff ih => exact wellLinked_create env body used db ih hfresh hff
  | update env objectID body used db _ hff ih => exact wellLinked_update env objectID body used db ih hff
  | delete env studentID used db _ _ ih => exact wellLinked_delete env studentID used db ih

theorem reachableCanonical_consistent (used : List ObjectID) (db : DB)
    (h : ReachableCanonical used db) : Consistent db :=
  (reachableCanonical_wellLinked used db h).consistent

/-! ## Creation -/

/-- C1. When the three inserts of `CreateStudent` succeed, the response is 201 with the new
student; the identifier is fresh (no stored student had it); and the store afterwards is the
store before with one record added to each collection: the student with the new identifier
and the submitted fields, a grade level record whose `student_id` is the hexadecimal string of
that identifier and whose level is the submitted grade level, and a class record with the same
`student_id` and the submitted class name and grade level. -/
theorem createStudent_success (env : Env) (input : Input) (db : DB)
    (h : (CreateStudent env (.ok input) db).calls =
      [⟨.students, .insertOne, true⟩, ⟨.grade_levels, .insertOne, true⟩,
        ⟨.classes, .insertOne, true⟩]) :
    (CreateStudent env (.ok input) db).resp =
        ⟨StatusCreated, .student ⟨env.studentID, input.FirstName, input.LastName, input.Address,
          input.GradeLevel, input.ClassName⟩⟩ ∧
      (∀ s ∈ db.students, s.ID ≠ env.studentID) ∧
      (CreateStudent env (.ok input) db).db.students =
        db.students ++ [⟨env.studentID, input.FirstName, input.LastName, input.Address,
          input.GradeLevel, input.ClassName⟩] ∧
      (CreateStudent env (.ok input) db).db.grade_levels =
        db.grade_levels ++ [⟨env.gradeLevelDocID, env.studentID.Hex, input.GradeLevel⟩] ∧
      (CreateStudent env (.ok input) db).db.classes =
        db.classes ++ [⟨env.classDocID, env.studentID.Hex, input.ClassName, input.GradeLevel⟩] :=
  createStudent_ok env input db h

/-- C1 at the sample request: `ann` created in the empty store. -/
theorem createStudent_success_witness :
    (CreateStudent envOk (.ok ann) emptyDB).calls =
        [⟨.students, .insertOne, true⟩, ⟨.grade_levels, .insertOne, true⟩,
          ⟨.classes, .insertOne, true⟩] ∧
      (CreateStudent envOk (.ok ann) emptyDB).resp =
        ⟨StatusCreated, .student ⟨oidA, "Ann", "Lee", "1 Main St", "5", "5A"⟩⟩ ∧
      (CreateStudent envOk (.ok ann) emptyDB).db.grade_levels =
        [⟨oidB, "65a1b2c3d4e5f60718293a4b", "5"⟩] ∧
      (CreateStudent envOk (.ok ann) emptyDB).db.classes =
        [⟨oidC, "65a1b2c3d4e5f60718293a4b", "5A", "5"⟩] :=
  ⟨by decide, (createStudent_success envOk ann emptyDB (by decide)).1,
    (createStudent_success envOk ann emptyDB (by decide)).2.2.2.1.trans (by decide),
    (createStudent_success envOk ann emptyDB (by decide)).2.2.2.2.trans (by decide)⟩

/-- C8. `CreateStudent` does not roll back.  If the insert of the student fails, the response
is 500 and the store is unchanged.  If the insert of the grade level fails, the response is
500, the student is stored, and `grade_levels` and `classes` are unchanged.  If the insert of
the class fails, the response is 500, the student and the grade level record are stored, and
`classes` is unchanged. -/
theorem createStudent_no_rollback (env : Env) (input : Input) (db : DB) :
    (⟨.students, .insertOne, false⟩ ∈ (CreateStudent env (.ok input) db).calls →
        (CreateStudent env (.ok input) db).resp.status = StatusInternalServerError ∧
        (CreateStudent env (.ok input) db).db = db) ∧
    (⟨.grade_levels, .insertOne, false⟩ ∈ (CreateStudent env (.ok input) db).calls →
        (CreateStudent env (.ok input) db).resp.status = StatusInternalServerError ∧
        (CreateStudent env (.ok input) db).db.students =
          db.students ++ [⟨env.studentID, input.FirstName, input.LastName, input.Address,
            input.GradeLevel, input.ClassName⟩] ∧
        (CreateStudent env (.ok input) db).db.grade_levels = db.grade_levels ∧
        (CreateStudent env (.ok input) db).db.classes = db.classes) ∧
    (⟨.classes, .insertOne, false⟩ ∈ (CreateStudent env (.ok input) db).calls →
        (CreateStudent env (.ok input) db).resp.status = StatusInternalServerError ∧
        (CreateStudent env (.ok input) db).db.students =
          db.students ++ [⟨env.studentID, input.FirstName, input.LastName, input.Address,
            input.GradeLevel, input.ClassName⟩] ∧
        (CreateStudent env (.ok input) db).db.grade_levels =
          db.grade_levels ++ [⟨env.gradeLevelDocID, env.studentID.Hex, input.GradeLevel⟩] ∧
        (CreateStudent env (.ok input) db).db.classes = db.classes) := by
  unfold CreateStudent
  simp only
  split
  · simp [httpError]
  · rename_i students h1
    rw [InsertOne_ok_iff] at h1
    obtain ⟨_, _, rfl⟩ := h1
    split
    · simp [httpError]
    · rename_i gls h2
      rw [InsertOne_ok_iff] at h2
      obtain ⟨_, _, rfl⟩ := h2
      split
      · simp [httpError]
      · simp

/-- C8 at the sample request, with the store calls failing on each collection in turn. -/
theorem createStudent_no_rollback_witness :
    ((⟨.students, .insertOne, false⟩ : StoreCall) ∈
          (CreateStudent (envDown .students) (.ok ann) emptyDB).calls ∧
        (CreateStudent (envDown .students) (.ok ann) emptyDB).db = emptyDB) ∧
      ((⟨.grade_levels, .insertOne, false⟩ : StoreCall) ∈
          (CreateStudent (envDown .grade_levels) (.ok ann) emptyDB).calls ∧
        (CreateStudent (envDown .grade_levels) (.ok ann) emptyDB).db.students =
          [⟨oidA, "Ann", "Lee", "1 Main St", "5", "5A"⟩] ∧
        (CreateStudent (envDown .grade_levels) (.ok ann) emptyDB).db.classes = []) ∧
      ((⟨.classes, .insertOne, false⟩ : StoreCall) ∈
          (CreateStudent (envDown .classes) (.ok ann) emptyDB).calls ∧
        (CreateStudent (envDown .classes) (.ok ann) emptyDB).db.grade_levels =
          [⟨oidB, "65a1b2c3d4e5f60718293a4b", "5"⟩] ∧
        (CreateStudent (envDown .classes) (.ok ann) emptyDB).db.classes = []) :=
  ⟨⟨by decide,
      ((createStudent_no_rollback (envDown .students) ann emptyDB).1 (by decide)).2⟩,
    ⟨by decide,
      ((createStudent_no_rollback (envDown .grade_levels) ann emptyDB).2.1
        (by decide)).2.1.trans (by decide),
      ((createStudent_no_rollback (envDown .grade_levels) ann emptyDB).2.1 (by decide)).2.2.2⟩,
    ⟨by decide,
      ((createStudent_no_rollback (envDown .classes) ann emptyDB).2.2
        (by decide)).2.2.1.trans (by decide),
      ((createStudent_no_rollback (envDown .classes) ann emptyDB).2.2 (by decide)).2.2.2⟩⟩

/-! ## Deletion -/

/-- C2 (the code departs from it).  For every student created by a successful `CreateStudent`,
a `DeleteStudent` on the hexadecimal string of its identifier in which the three deletes
succeed responds 200 and removes the student, but the grade level record and the class record
of that student are still stored: the filter of the two dependent deletes holds the
identifier as an ObjectId, the dependents hold it as a string, and nothing matches. -/
theorem deleteStudent_leaves_dependents (env env2 : Env) (input : Input) (db : DB)
    (hcreate : (CreateStudent env (.ok input) db).calls =
      [⟨.students, .insertOne, true⟩, ⟨.grade_levels, .insertOne, true⟩,
        ⟨.classes, .insertOne, true⟩])
    (hok : ∀ c, env2.fault c = false) :
    (DeleteStudent env2 env.studentID.Hex (CreateStudent env (.ok input) db).db).resp =
        ⟨StatusOK, .json "message" "Student deleted successfully"⟩ ∧
      (DeleteStudent env2 env.studentID.Hex (CreateStudent env (.ok input) db).db).calls =
        [⟨.students, .deleteOne, true⟩, ⟨.grade_levels, .deleteOne, true⟩,
          ⟨.classes, .deleteOne, true⟩] ∧
      (∀ s ∈ (DeleteStudent env2 env.studentID.Hex
          (CreateStudent env (.ok input) db).db).db.students, s.ID ≠ env.studentID) ∧
      (⟨env.gradeLevelDocID, env.studentID.Hex, input.GradeLevel⟩ : GradeLevel) ∈
        (DeleteStudent env2 env.studentID.Hex
          (CreateStudent env (.ok input) db).db).db.grade_levels ∧
      (⟨env.classDocID, env.studentID.Hex, input.ClassName, input.GradeLevel⟩ : Class) ∈
        (DeleteStudent env2 env.studentID.Hex
          (CreateStudent env (.ok input) db).db).db.classes := by
  obtain ⟨_, hfresh, hs, hg, hc⟩ := createStudent_ok env input db hcreate
  obtain ⟨hdc, hdg⟩ := deleteStudent_dependents env2 env.studentID.Hex
    (CreateStudent env (.ok input) db).db
  have hne := ObjectIDFromHex_ne_empty _ _ (ObjectIDFromHex_Hex env.studentID)
  have hdel : deleteFirst (matchEq ("_id", BsonValue.objectID env.studentID))
      (CreateStudent env (.ok input) db).db.students = db.students := by
    rw [hs]
    apply deleteFirst_append_last
    · intro s hs'
      rw [← Bool.not_eq_true, matchEq_student_id]
      exact hfresh s hs'
    · rw [matchEq_student_id]
  refine ⟨?_, ?_, ?_, ?_, ?_⟩
  · unfold DeleteStudent
    simp [hne, ObjectIDFromHex_Hex, DeleteOne, hok]
  · unfold DeleteStudent
    simp [hne, ObjectIDFromHex_Hex, DeleteOne, hok]
  · unfold DeleteStudent
    simp only [hne, if_false, ObjectIDFromHex_Hex, DeleteOne, hok, hdel, Bool.false_eq_true]
    exact hfresh
  · rw [hdg, hg]; simp
  · rw [hdc, hc]; simp

/-- C2 at the sample request: `ann` is created in the empty store and deleted by
`65a1b2c3d4e5f60718293a4b`; the delete responds 200, `students` is empty, and both dependents
are still there. -/
theorem deleteStudent_leaves_dependents_witness :
    (DeleteStudent envOk "65a1b2c3d4e5f60718293a4b" annDB).resp.status = StatusOK ∧
      (DeleteStudent envOk "65a1b2c3d4e5f60718293a4b" annDB).db.students = [] ∧
      (⟨oidB, "65a1b2c3d4e5f60718293a4b", "5"⟩ : GradeLevel) ∈
        (DeleteStudent envOk "65a1b2c3d4e5f60718293a4b" annDB).db.grade_levels ∧
      (⟨oidC, "65a1b2c3d4e5f60718293a4b", "5A", "5"⟩ : Class) ∈
        (DeleteStudent envOk "65a1b2c3d4e5f60718293a4b" annDB).db.classes :=
  ⟨by decide, by decide,
    (deleteStudent_leaves_dependents envOk envOk ann emptyDB (by decide)
      (fun _ => rfl)).2.2.2.1,
    (deleteStudent_leaves_dependents envOk envOk ann emptyDB (by decide)
      (fun _ => rfl)).2.2.2.2⟩

/-! ## Consistency across the collections -/

/-- C3 (the code departs from it).  A store state that breaks the consistency invariant is
reachable without any store error: create `ann` (class 5A, grade 5) with identifier
`65a1b2c3d4e5f60718293a4b`, then update her to class 6B, grade 6 through the path
`65A1B2C3D4E5F60718293A4B`.  `ObjectIDFromHex` accepts the upper-case digits, so the student
is matched and updated; the dependents are looked up by the path string as it came, which is
not the lower-case string they store, so they keep class 5A and grade 5.  (When every
update names the student by the lower-case string and no identifier is handed out twice, the
invariant does hold: `reachableCanonical_consistent`.) -/
theorem consistency_broken_by_update :
    (CreateStudent envOk (.ok ann) emptyDB).resp.status = StatusCreated ∧
      FailureFree (CreateStudent envOk (.ok ann) emptyDB) ∧
      (UpdateStudent envOk "65A1B2C3D4E5F60718293A4B" (.ok annMoved) annDB).resp.status =
        StatusOK ∧
      FailureFree (UpdateStudent envOk "65A1B2C3D4E5F60718293A4B" (.ok annMoved) annDB) ∧
      Reachable (UpdateStudent envOk "65A1B2C3D4E5F60718293A4B" (.ok annMoved) annDB).db ∧
      (UpdateStudent envOk "65A1B2C3D4E5F60718293A4B" (.ok annMoved) annDB).db =
        ⟨[⟨oidA, "Ann", "Lee", "1 Main St", "6", "6B"⟩],
          [⟨oidC, "65a1b2c3d4e5f60718293a4b", "5A", "5"⟩],
          [⟨oidB, "65a1b2c3d4e5f60718293a4b", "5"⟩]⟩ ∧
      ¬ Consistent (UpdateStudent envOk "65A1B2C3D4E5F60718293A4B" (.ok annMoved) annDB).db :=
  ⟨by decide, by decide, by decide, by decide,
    Reachable.update envOk "65A1B2C3D4E5F60718293A4B" (.ok annMoved) annDB
      (Reachable.create envOk (.ok ann) emptyDB Reachable.empty (by decide)) (by decide),
    by decide, by decide⟩


/-! ## Update -/

/-- C4. For a well-formed identifier that matches no stored student and a decoded payload,
`UpdateStudent` responds 404, leaves the three collections as they were, and issues no store
call besides the one on `students`. -/
theorem updateStudent_unknown_id (env : Env) (studentID : String) (input : Input) (db : DB)
    (hwf : WellFormedID studentID)
    (hno : ∀ s ∈ db.students, ObjectIDFromHex studentID ≠ some s.ID) :
    (UpdateStudent env studentID (.ok input) db).resp.status = StatusNotFound ∧
      (UpdateStudent env studentID (.ok input) db).db = db ∧
      (UpdateStudent env studentID (.ok input) db).calls.map StoreCall.coll = [.students] := by
  obtain ⟨objectID, hid⟩ := Option.isSome_iff_exists.mp
    ((ObjectIDFromHex_isSome_iff studentID).mpr hwf)
  have hne := ObjectIDFromHex_ne_empty studentID objectID hid
  have hnm : ∀ s ∈ db.students, matchEq ("_id", BsonValue.objectID objectID) s = false := by
    intro s hs
    rw [← Bool.not_eq_true, matchEq_student_id]
    intro heq
    exact hno s hs (by rw [hid, heq])
  unfold UpdateStudent
  simp only [hne, if_false, hid, UpdateOne]
  cases env.fault .students
  · simp [updateFirst_no_match _ _ _ hnm, httpError]
  · simp [httpError]

/-- C4 at a sample request: an update by `65a1b2c3d4e5f60718293a4c`, which is not the
identifier of the one stored student. -/
theorem updateStudent_unknown_id_witness :
    (WellFormedID "65a1b2c3d4e5f60718293a4c" ∧
        ∀ s ∈ annDB.students, ObjectIDFromHex "65a1b2c3d4e5f60718293a4c" ≠ some s.ID) ∧
      (UpdateStudent envOk "65a1b2c3d4e5f60718293a4c" (.ok annMoved) annDB).resp.status =
        StatusNotFound ∧
      (UpdateStudent envOk "65a1b2c3d4e5f60718293a4c" (.ok annMoved) annDB).db = annDB :=
  ⟨⟨(ObjectIDFromHex_isSome_iff _).mp (by decide), by decide⟩,
    (updateStudent_unknown_id envOk "65a1b2c3d4e5f60718293a4c" annMoved annDB
      ((ObjectIDFromHex_isSome_iff _).mp (by decide)) (by decide)).1,
    (updateStudent_unknown_id envOk "65a1b2c3d4e5f60718293a4c" annMoved annDB
      ((ObjectIDFromHex_isSome_iff _).mp (by decide)) (by decide)).2.1⟩

/-- C9 (as the code has it).  For a well-formed identifier and a decoded payload,
`UpdateStudent` responds 404 exactly when the update of the student returned an error or
matched no student; it responds 500 exactly when the student was updated and the update of
the class or of the grade level returned an error; it responds 200 exactly when the student
was matched and no store call returned an error. -/
theorem updateStudent_status (env : Env) (studentID : String) (objectID : ObjectID)
    (input : Input) (db : DB) (hid : ObjectIDFromHex studentID = some objectID) :
    ((UpdateStudent env studentID (.ok input) db).resp.status = StatusNotFound ↔
        (env.fault .students = true ∨ ∀ s ∈ db.students, s.ID ≠ objectID)) ∧
      ((UpdateStudent env studentID (.ok input) db).resp.status = StatusInternalServerError ↔
        (env.fault .students = false ∧ (∃ s ∈ db.students, s.ID = objectID) ∧
          (env.fault .classes = true ∨ env.fault .grade_levels = true))) ∧
      ((UpdateStudent env studentID (.ok input) db).resp.status = StatusOK ↔
        (env.fault .students = false ∧ (∃ s ∈ db.students, s.ID = objectID) ∧
          env.fault .classes = false ∧ env.fault .grade_levels = false)) := by
  have hne := ObjectIDFromHex_ne_empty studentID objectID hid
  have hm := updateFirst_matched (matchEq ("_id", BsonValue.objectID objectID))
    (applySet [("first_name", .str input.FirstName), ("last_name", .str input.LastName),
      ("address", .str input.Address), ("class_name", .str input.ClassName),
      ("grade_level", .str input.GradeLevel)]) db.students
  have hiff : (∀ d ∈ db.students, matchEq ("_id", BsonValue.objectID objectID) d = false) ↔
      ∀ s ∈ db.students, s.ID ≠ objectID := by
    constructor
    · intro h s hs
      have := h s hs
      rw [← Bool.not_eq_true, matchEq_student_id] at this
      exact this
    · intro h s hs
      rw [← Bool.not_eq_true, matchEq_student_id]
      exact h s hs
  rw [hiff] at hm
  unfold UpdateStudent
  simp only [hne, if_false, hid, UpdateOne]
  cases hs : env.fault .students
  · by_cases hz : ∀ s ∈ db.students, s.ID ≠ objectID
    · have h0 := hm.mpr hz
      have hz2 : ¬ ∃ s ∈ db.students, s.ID = objectID := by
        rintro ⟨s, hs1, hs2⟩
        exact hz s hs1 hs2
      simp [h0, hz2, httpError, StatusNotFound, StatusInternalServerError, StatusOK]
      exact hz
    · have h0 : ¬ _ := fun h => hz (hm.mp h)
      have hz2 : ∃ s ∈ db.students, s.ID = objectID := by
        by_contra hcon
        exact hz (fun s hs1 hs2 => hcon ⟨s, hs1, hs2⟩)
      cases hc : env.fault .classes <;> cases hg : env.fault .grade_levels <;>
        simp [h0, hz, hz2, httpError, StatusNotFound, StatusInternalServerError, StatusOK]
  · simp [httpError, StatusNotFound, StatusInternalServerError, StatusOK]

/-- C9 as the code has it, at sample requests on the stored student: 404 when the store call
on `students` fails, 500 when the one on `grade_levels` fails, 200 when none fails. -/
theorem updateStudent_status_witness :
    ObjectIDFromHex "65a1b2c3d4e5f60718293a4b" = some oidA ∧
      (UpdateStudent (envDown .students) "65a1b2c3d4e5f60718293a4b" (.ok annMoved)
        annDB).resp.status = StatusNotFound ∧
      (UpdateStudent (envDown .grade_levels) "65a1b2c3d4e5f60718293a4b" (.ok annMoved)
        annDB).resp.status = StatusInternalServerError ∧
      (UpdateStudent envOk "65a1b2c3d4e5f60718293a4b" (.ok annMoved) annDB).resp.status =
        StatusOK :=
  ⟨by decide,
    (updateStudent_status (envDown .students) "65a1b2c3d4e5f60718293a4b" oidA annMoved annDB
      (by decide)).1.mpr (Or.inl (by decide)),
    (updateStudent_status (envDown .grade_levels) "65a1b2c3d4e5f60718293a4b" oidA annMoved
      annDB (by decide)).2.1.mpr (by decide),
    (updateStudent_status envOk "65a1b2c3d4e5f60718293a4b" oidA annMoved annDB
      (by decide)).2.2.mpr (by decide)⟩

/-- C9 as stated fails: the student `65a1b2c3d4e5f60718293a4b` is stored, the update of the
student returns an error, and the response is 404 with the text for both cases, not 500. -/
theorem updateStudent_primary_error_reported_404 :
    (∃ s ∈ annDB.students, ObjectIDFromHex "65a1b2c3d4e5f60718293a4b" = some s.ID) ∧
      (UpdateStudent (envDown .students) "65a1b2c3d4e5f60718293a4b" (.ok annMoved) annDB).calls =
        [⟨.students, .updateOne, false⟩] ∧
      (UpdateStudent (envDown .students) "65a1b2c3d4e5f60718293a4b" (.ok annMoved) annDB).resp =
        httpError "Student not found or failed to update" StatusNotFound := by
  decide

/-! ## Order of the store calls -/

/-- C10 (as the code has it).  `CreateStudent` and `DeleteStudent` issue their store calls in
the order students, grade levels, classes; `UpdateStudent` issues them in the order students,
classes, grade levels; each stops at the first call that fails, and goes through all three
when none fails (an update stops after the first as well when no student is matched).  For
`UpdateStudent`: when the update of the class fails, the grade level records are untouched,
and whenever the update of the grade level is attempted, the update of the class has
succeeded. -/
theorem handlers_call_order (env : Env) (studentID : String) (body : Except String Input)
    (db : DB) :
    StopsAtFirstFailure [.students, .grade_levels, .classes]
        (CreateStudent env body db).calls ∧
      StopsAtFirstFailure [.students, .grade_levels, .classes]
        (DeleteStudent env studentID db).calls ∧
      StopsAtFirstFailure [.students, .classes, .grade_levels]
        (UpdateStudent env studentID body db).calls ∧
      (⟨.classes, .updateOne, false⟩ ∈ (UpdateStudent env studentID body db).calls →
        (UpdateStudent env studentID body db).db.grade_levels = db.grade_levels) ∧
      (∀ c ∈ (UpdateStudent env studentID body db).calls, c.coll = .grade_levels →
        ⟨.classes, .updateOne, true⟩ ∈ (UpdateStudent env studentID body db).calls) ∧
      (∀ input, body = .ok input → FailureFree (CreateStudent env body db) →
        (CreateStudent env body db).calls.map StoreCall.coll =
          [.students, .grade_levels, .classes]) ∧
      (WellFormedID studentID → FailureFree (DeleteStudent env studentID db) →
        (DeleteStudent env studentID db).calls.map StoreCall.coll =
          [.students, .grade_levels, .classes]) ∧
      (∀ input, body = .ok input → WellFormedID studentID →
        FailureFree (UpdateStudent env studentID body db) →
        (UpdateStudent env studentID body db).calls.map StoreCall.coll =
            [.students, .classes, .grade_levels] ∨
          ((UpdateStudent env studentID body db).resp.status = StatusNotFound ∧
            (UpdateStudent env studentID body db).calls.map StoreCall.coll = [.students])) := by
  refine ⟨?_, ?_, ?_, ?_, ?_, ?_, ?_, ?_⟩
  · unfold CreateStudent StopsAtFirstFailure
    cases body with
    | error e => simp
    | ok input =>
      simp only
      repeat' split
      all_goals simp
  · unfold DeleteStudent StopsAtFirstFailure
    simp only
    repeat' split
    all_goals simp
  · unfold UpdateStudent StopsAtFirstFailure
    simp only
    repeat' split
    all_goals simp
  · unfold UpdateStudent
    simp only
    repeat' split
    all_goals simp
  · unfold UpdateStudent
    simp only
    repeat' split
    all_goals simp
  · rintro input rfl hff
    rw [createStudent_failureFree env input db hff]
    rfl
  · intro hwf
    obtain ⟨objectID, hid⟩ := Option.isSome_iff_exists.mp
      ((ObjectIDFromHex_isSome_iff studentID).mpr hwf)
    have hne := ObjectIDFromHex_ne_empty studentID objectID hid
    unfold FailureFree DeleteStudent
    simp only [hne, if_false, hid, DeleteOne]
    cases env.fault .students <;> cases env.fault .grade_levels <;>
      cases env.fault .classes <;> simp
  · rintro input rfl hwf
    obtain ⟨objectID, hid⟩ := Option.isSome_iff_exists.mp
      ((ObjectIDFromHex_isSome_iff studentID).mpr hwf)
    have hne := ObjectIDFromHex_ne_empty studentID objectID hid
    unfold FailureFree UpdateStudent
    simp only [hne, if_false, hid, UpdateOne]
    cases env.fault .students <;> cases env.fault .grade_levels <;>
      cases env.fault .classes <;> simp <;> split <;> simp [httpError]

/-- C10 as the code has it, at a sample update whose class update fails. -/
theorem handlers_call_order_witness :
    StopsAtFirstFailure [.students, .classes, .grade_levels]
        (UpdateStudent (envDown .classes) "65a1b2c3d4e5f60718293a4b" (.ok annMoved)
          annDB).calls ∧
      ((⟨.classes, .updateOne, false⟩ : StoreCall) ∈
          (UpdateStudent (envDown .classes) "65a1b2c3d4e5f60718293a4b" (.ok annMoved)
            annDB).calls ∧
        (UpdateStudent (envDown .classes) "65a1b2c3d4e5f60718293a4b" (.ok annMoved)
          annDB).db.grade_levels = annDB.grade_levels) :=
  ⟨(handlers_call_order (envDown .classes) "65a1b2c3d4e5f60718293a4b" (.ok annMoved) annDB).2.2.1,
    by decide,
    (handlers_call_order (envDown .classes) "65a1b2c3d4e5f60718293a4b" (.ok annMoved)
      annDB).2.2.2.1 (by decide)⟩

/-- C10 as stated fails: in an update of the stored student whose grade level update fails,
the class update was issued before it, and the class record has changed from 5A to 6B. -/
theorem updateStudent_class_before_gradeLevel :
    (UpdateStudent (envDown .grade_levels) "65a1b2c3d4e5f60718293a4b" (.ok annMoved)
        annDB).calls =
        [⟨.students, .updateOne, true⟩, ⟨.classes, .updateOne, true⟩,
          ⟨.grade_levels, .updateOne, false⟩] ∧
      annDB.classes = [⟨oidC, "65a1b2c3d4e5f60718293a4b", "5A", "5"⟩] ∧
      (UpdateStudent (envDown .grade_levels) "65a1b2c3d4e5f60718293a4b" (.ok annMoved)
        annDB).db.classes = [⟨oidC, "65a1b2c3d4e5f60718293a4b", "6B", "6"⟩] := by
  decide


/-! ## Lookup by identifier -/

/-- C5. `GetStudentByID` on a string that is not a 24 digit hexadecimal identifier responds
400, not 500, and issues no store call; the text is that of the invalid identifier unless the
string is empty (which the route does not deliver).  On a well-formed identifier that matches
no stored student, a lookup that runs without a driver error reports that no document matches
and the response is 404. -/
theorem getStudentByID_classification (env : Env) (studentID : String) (db : DB) :
    (¬ WellFormedID studentID →
        (GetStudentByID env studentID db).resp.status = StatusBadRequest ∧
        (GetStudentByID env studentID db).resp.status ≠ StatusInternalServerError ∧
        (GetStudentByID env studentID db).calls = [] ∧
        (studentID ≠ "" →
          (GetStudentByID env studentID db).resp =
            httpError "Invalid student_id format" StatusBadRequest)) ∧
    (WellFormedID studentID →
        (∀ s ∈ db.students, ObjectIDFromHex studentID ≠ some s.ID) →
        env.fault .students = false →
        (GetStudentByID env studentID db).resp = httpError "Student not found" StatusNotFound ∧
        (GetStudentByID env studentID db).calls = [⟨.students, .findOne, false⟩]) := by
  constructor
  · intro hwf
    have h : ObjectIDFromHex studentID = none := by
      rw [← ObjectIDFromHex_isSome_iff] at hwf
      simpa using hwf
    unfold GetStudentByID
    by_cases he : studentID = ""
    · simp [he, httpError, StatusBadRequest, StatusInternalServerError]
    · simp [he, h, httpError, StatusBadRequest, StatusInternalServerError]
  · intro hwf hno hf
    obtain ⟨objectID, hid⟩ := Option.isSome_iff_exists.mp
      ((ObjectIDFromHex_isSome_iff studentID).mpr hwf)
    have hne := ObjectIDFromHex_ne_empty studentID objectID hid
    have hfind : db.students.find? (matchEq ("_id", BsonValue.objectID objectID)) = none := by
      rw [List.find?_eq_none]
      intro s hs
      rw [matchEq_student_id]
      intro heq
      exact hno s hs (by rw [hid, heq])
    unfold GetStudentByID
    simp [hne, hid, FindOne, hf, hfind]

/-- C5 at sample requests: a string of the wrong length, a string of 24 characters with a
non-digit, and a well-formed identifier that is not stored. -/
theorem getStudentByID_classification_witness :
    (¬ WellFormedID "42" ∧
        (GetStudentByID envOk "42" annDB).resp =
          httpError "Invalid student_id format" StatusBadRequest) ∧
      (¬ WellFormedID "65a1b2c3d4e5f60718293a4g" ∧
        (GetStudentByID envOk "65a1b2c3d4e5f60718293a4g" annDB).calls = []) ∧
      (WellFormedID "65a1b2c3d4e5f60718293a4c" ∧
        (GetStudentByID envOk "65a1b2c3d4e5f60718293a4c" annDB).resp =
          httpError "Student not found" StatusNotFound) :=
  ⟨⟨fun h => absurd ((ObjectIDFromHex_isSome_iff _).mpr h) (by decide),
      ((getStudentByID_classification envOk "42" annDB).1
        (fun h => absurd ((ObjectIDFromHex_isSome_iff _).mpr h) (by decide))).2.2.2
        (by decide)⟩,
    ⟨fun h => absurd ((ObjectIDFromHex_isSome_iff _).mpr h) (by decide),
      ((getStudentByID_classification envOk "65a1b2c3d4e5f60718293a4g" annDB).1
        (fun h => absurd ((ObjectIDFromHex_isSome_iff _).mpr h) (by decide))).2.2.1⟩,
    ⟨(ObjectIDFromHex_isSome_iff _).mp (by decide),
      ((getStudentByID_classification envOk "65a1b2c3d4e5f60718293a4c" annDB).2
        ((ObjectIDFromHex_isSome_iff _).mp (by decide)) (by decide) rfl).1⟩⟩

/-! ## Search -/

/-- C6 (as the code has it).  When no search parameter holds a character with a special
meaning in a pattern, and the query runs without a store error, the students returned are
exactly the stored students whose fields contain each given parameter as a substring, compared
up to the caseless equivalence of the store: 200 with those students in store order, or 404
when there is none. -/
theorem searchStudents_literal (env : Env) (q : SearchQuery) (db : DB)
    (hf : env.fault .students = false) (hc : env.cursorFault = false)
    (h1 : MetaFree q.class_name) (h2 : MetaFree q.grade_level)
    (h3 : MetaFree q.first_name) (h4 : MetaFree q.last_name) :
    (SearchStudents env q db).resp =
      if db.students.filter (fun s => decide (MatchesQuery env.fold q s)) = [] then
        ⟨StatusNotFound, .json "error" "No students found"⟩
      else
        ⟨StatusOK,
          .students (db.students.filter (fun s => decide (MatchesQuery env.fold q s)))⟩ := by
  unfold SearchStudents
  simp only [hf, find_searchFilter env q db.students h1 h2 h3 h4, hc, Bool.false_eq_true,
    if_false, List.length_eq_zero]
  split <;> rfl

/-- C6 as the code has it, at a sample search: class name `5a` and first name `an` find the
student of class `5A` named `Ann`. -/
theorem searchStudents_literal_witness :
    (MetaFree "5a" ∧ MetaFree "" ∧ MetaFree "an") ∧
      (SearchStudents envOk ⟨"5a", "", "an", ""⟩ annDB).resp =
        ⟨StatusOK, .students [⟨oidA, "Ann", "Lee", "1 Main St", "5", "5A"⟩]⟩ :=
  ⟨by decide,
    (searchStudents_literal envOk ⟨"5a", "", "an", ""⟩ annDB rfl rfl (by decide) (by decide)
      (by decide) (by decide)).trans (by decide)⟩

/-- C6 as stated fails: the parameter is a pattern, not a literal.  A search for class name
`.` returns the student of class `5A`, and `5A` does not contain a dot. -/
theorem searchStudents_pattern_not_literal :
    (SearchStudents envOk ⟨".", "", "", ""⟩ annDB).resp =
        ⟨StatusOK, .students [⟨oidA, "Ann", "Lee", "1 Main St", "5", "5A"⟩]⟩ ∧
      ¬ ContainsFold envOk.fold "." "5A" := by
  decide

/-- C7. For every query, `SearchStudents` hands `Find` a filter that has one entry, a
caseless pattern condition, for each of the four parameters that is non-empty, in the order
class name, grade level, first name, last name, and no other entry: the response is the one
the handler derives from the outcome of `Find` with exactly that filter, and when the query
runs without a store error the students returned are the stored students that satisfy the
compiled conditions, whose fields are those of the non-empty parameters.  When the four are
empty the filter is empty, and a query that runs without a store error returns every stored
student (404 when none is stored). -/
theorem searchFilter_exact (q : SearchQuery) :
    searchFilter q =
        ([("class_name", q.class_name), ("grade_level", q.grade_level),
          ("first_name", q.first_name), ("last_name", q.last_name)].filter
            (fun e => e.2 != "")).map (fun e => (e.1, (⟨e.2, "i"⟩ : RegexCond))) ∧
      (q.class_name = "" ∧ q.grade_level = "" ∧ q.first_name = "" ∧ q.last_name = "" →
        searchFilter q = [] ∧
        ∀ (env : Env) (db : DB), env.fault .students = false → env.cursorFault = false →
          (SearchStudents env q db).resp =
            if db.students = [] then ⟨StatusNotFound, .json "error" "No students found"⟩
            else ⟨StatusOK, .students db.students⟩) ∧
      (∀ (env : Env) (db : DB),
        (SearchStudents env q db).db = db ∧
        (SearchStudents env q db).calls.map StoreCall.coll = [.students] ∧
        (SearchStudents env q db).resp =
          match Find env (env.fault .students)
            (([("class_name", q.class_name), ("grade_level", q.grade_level),
              ("first_name", q.first_name), ("last_name", q.last_name)].filter
                (fun e => e.2 != "")).map (fun e => (e.1, (⟨e.2, "i"⟩ : RegexCond))))
            db.students with
          | .error _ =>
            httpError ("Failed to search students: " ++ env.errText) StatusInternalServerError
          | .ok students =>
            if env.cursorFault = true then
              httpError ("Cursor error: " ++ env.errText) StatusInternalServerError
            else if students = [] then ⟨StatusNotFound, .json "error" "No students found"⟩
            else ⟨StatusOK, .students students⟩) ∧
      (∀ (env : Env) (db : DB) (conds : List (String × (List Char → Bool))),
        env.fault .students = false → env.cursorFault = false →
        Filter.compile env (searchFilter q) = some conds →
        conds.map Prod.fst =
            ([("class_name", q.class_name), ("grade_level", q.grade_level),
              ("first_name", q.first_name), ("last_name", q.last_name)].filter
                (fun e => e.2 != "")).map Prod.fst ∧
          (SearchStudents env q db).resp =
            if db.students.filter (satisfies conds) = [] then
              ⟨StatusNotFound, .json "error" "No students found"⟩
            else ⟨StatusOK, .students (db.students.filter (satisfies conds))⟩) := by
  refine ⟨searchFilter_eq q, ?_, ?_, ?_⟩
  · rintro ⟨e1, e2, e3, e4⟩
    have hempty : searchFilter q = [] := by simp [searchFilter, e1, e2, e3, e4]
    refine ⟨hempty, ?_⟩
    intro env db hf hc
    unfold SearchStudents
    simp only [hempty, Find, hf, Filter.compile, hc, Bool.false_eq_true, if_false,
      List.length_eq_zero]
    have : List.filter (satisfies ([] : List (String × (List Char → Bool)))) db.students
        = db.students := by
      simp [satisfies]
    rw [this]
    split <;> rfl
  · intro env db
    rw [← searchFilter_eq q]
    unfold SearchStudents
    simp only [List.length_eq_zero]
    cases Find env (env.fault .students) (searchFilter q) db.students with
    | error e => exact ⟨rfl, rfl, rfl⟩
    | ok students =>
      simp only
      cases env.cursorFault
      · simp only [Bool.false_eq_true, if_false]
        by_cases hs : students = []
        · simp [hs]
        · simp [hs]
      · exact ⟨rfl, rfl, rfl⟩
  · intro env db conds hf hc hcomp
    constructor
    · rw [compile_keys env _ conds hcomp, searchFilter_eq q, List.map_map]
      rfl
    · unfold SearchStudents
      simp only [Find, hf, hcomp, hc, Bool.false_eq_true, if_false, List.length_eq_zero]
      split <;> rfl

/-- C7 at sample requests: a search by grade level alone, a search without parameters, and on
the store holding the student of class `5A` a search by class name `5a`, which returns her,
and one by class name `6B`, which finds nobody. -/
theorem searchFilter_exact_witness :
    searchFilter ⟨"", "5", "", ""⟩ = [("grade_level", ⟨"5", "i"⟩)] ∧
      searchFilter ⟨"", "", "", ""⟩ = [] ∧
      (SearchStudents envOk ⟨"", "", "", ""⟩ annDB).resp =
        ⟨StatusOK, .students [⟨oidA, "Ann", "Lee", "1 Main St", "5", "5A"⟩]⟩ ∧
      (SearchStudents envOk ⟨"5a", "", "", ""⟩ annDB).resp =
        ⟨StatusOK, .students [⟨oidA, "Ann", "Lee", "1 Main St", "5", "5A"⟩]⟩ ∧
      (SearchStudents envOk ⟨"6B", "", "", ""⟩ annDB).resp =
        ⟨StatusNotFound, .json "error" "No students found"⟩ ∧
      (SearchStudents (envDown .students) ⟨"5a", "", "", ""⟩ annDB).resp.status =
        StatusInternalServerError :=
  ⟨(searchFilter_exact ⟨"", "5", "", ""⟩).1.trans (by decide),
    ((searchFilter_exact ⟨"", "", "", ""⟩).2.1 ⟨rfl, rfl, rfl, rfl⟩).1,
    (((searchFilter_exact ⟨"", "", "", ""⟩).2.1 ⟨rfl, rfl, rfl, rfl⟩).2 envOk annDB rfl
      rfl).trans (by decide),
    ((searchFilter_exact ⟨"5a", "", "", ""⟩).2.2.1 envOk annDB).2.2.trans (by decide),
    ((searchFilter_exact ⟨"6B", "", "", ""⟩).2.2.1 envOk annDB).2.2.trans (by decide),
    (congrArg Response.status
      ((searchFilter_exact ⟨"5a", "", "", ""⟩).2.2.1 (envDown .students) annDB).2.2).trans
      (by decide)⟩

end Mentor
